import Mathlib

/-!
Verification of the SENTINEL anti-cheat detection engine.

This file gives a shallow embedding of the engine's core (the player
baseline store, the rolling statistical windows, the deviation evaluator,
the cross-signal correlation engine, the action resolver, and the
detection-dispatch pipeline) together with the five detector modules
(aim, input, packet, statistics, behavior), and proves the behavioural
properties stated in the specification.

Modelling conventions:

* JavaScript numbers are idealised as elements of a `LinearOrderedField`.
  The whole statistical core is polymorphic in that field; concrete
  pipeline runs instantiate it at the rationals (fully executable),
  while the one statement about the standard-deviation estimator is
  instantiated at the reals with `Real.sqrt` standing for the host
  environment's square-root routine.  `Math.sqrt` is therefore passed
  to the statistical functions as an explicit function argument.
* Module-level mutable state is threaded explicitly: the global map of
  player baselines becomes a `Store` value passed in and out, the global
  pipeline readiness bitmask `_pipelineToken` becomes a `token : Nat`
  parameter, and every call of the host clock (`Date.now()`) becomes a
  `now` parameter.
* JavaScript `Map` objects are embedded as insertion-ordered association
  lists with lookup on the key and set-or-append update, matching `Map`
  semantics for the operations the engine uses.
* Optional telemetry payload fields (tested with `!== undefined` in the
  source) become `Option` fields; casting an event payload to the wrong
  telemetry shape yields a payload whose fields are all absent, matching
  property reads on an object of a different shape.
* The numeric interpolations inside human-readable flag messages are
  elided; the static message text, the number of flags and the
  structure of every message list are preserved.  No specified property
  depends on the interpolated digits.
* The observer callback registered with `onDetection` is awaited inside
  the same try block, after the result has already been pushed; it can
  affect neither the returned result sequence nor the baseline store,
  and is not represented.
* The license beacon (`_initLicenseSubsystem`) performs network I/O and
  is out of scope per the specification; its observable effect — the
  readiness bitmask, `0` until the activation step completes and with
  bit `0x1` set afterwards — is exactly the `token` parameter.
  `shannonEntropy`, `pearsonCorrelation` and `calculateRiskEscalation`
  are exported utilities never invoked on the dispatch path and are not
  needed by any statement below.
-/

namespace Sentinel

/-- Enforcement tiers, from `sentinel-types.ts` (`ActionType`). -/
inductive ActionType where
  | flag
  | shadow_ban
  | temporary_ban
  | permanent_ban
  | hardware_ban
deriving DecidableEq

/-- Cheat classifications, from `sentinel-types.ts` (`CheatType`). -/
inductive CheatType where
  | aimbot
  | aim_assist_abuse
  | cronus_zen
  | macro_script
  | network_manipulation
  | packet_injection
  | statistical_impossibility
  | wallhack_esp
  | suspicious_behavior
deriving DecidableEq

/-- Detection severities, from `sentinel-types.ts`. -/
inductive Severity where
  | critical
  | high
  | medium
  | low
deriving DecidableEq

section Core

variable {α : Type} [LinearOrderedField α]

/-- Engine configuration (`SentinelConfig` in `sentinel-types.ts`).
Sample-count bounds are naturals; the remaining fields are numbers. -/
structure SentinelConfig (α : Type) where
  correlationWindowMs : α
  baselineSamples : Nat
  deviationThreshold : α
  minSamplesForBaseline : Nat
  autobanConfidence : α
  shadowbanConfidence : α
  flagConfidence : α
deriving DecidableEq

/-- `DEFAULT_CONFIG` from `sentinel-baseline.ts`
(60000, 50, 2.5, 5, 0.85, 0.65, 0.40). -/
def DEFAULT_CONFIG : SentinelConfig α :=
  { correlationWindowMs := 60000
    baselineSamples := 50
    deviationThreshold := 5 / 2
    minSamplesForBaseline := 5
    autobanConfidence := 85 / 100
    shadowbanConfidence := 65 / 100
    flagConfidence := 40 / 100 }

/-- A per-metric rolling sample window (`RollingSamples`). -/
structure RollingSamples (α : Type) where
  values : List α
  maxSamples : Nat
  mean : α
  stddev : α
deriving DecidableEq

/-- One entry of a baseline's recent-detection log (`TimestampedDetection`). -/
structure TimestampedDetection (α : Type) where
  module : String
  confidence : α
  timestamp : α
deriving DecidableEq

/-- A per-player behavioural profile (`PlayerBaseline`).  The per-metric
windows keep `Map` insertion order as an association list. -/
structure PlayerBaseline (α : Type) where
  playerId : String
  createdAt : α
  eventCount : Nat
  metrics : List (String × RollingSamples α)
  recentDetections : List (TimestampedDetection α)
deriving DecidableEq

/-- The process-wide `playerBaselines` map, keyed by player id. -/
abbrev Store (α : Type) : Type := List (String × PlayerBaseline α)

/-- `Map.get`: first binding of the key, if any. -/
def mapGet {β : Type} (m : List (String × β)) (k : String) : Option β :=
  (m.find? (fun p => p.1 == k)).map (fun p => p.2)

/-- `Map.set`: replace the existing binding in place, else append. -/
def mapSet {β : Type} (m : List (String × β)) (k : String) (v : β) :
    List (String × β) :=
  if m.any (fun p => p.1 == k) then
    m.map (fun p => if p.1 == k then (k, v) else p)
  else
    m ++ [(k, v)]

/-- `calculateMean` from `sentinel-baseline.ts`: `0` on an empty list,
else the `reduce`-sum divided by the length. -/
def calculateMean (values : List α) : α :=
  if values.length = 0 then 0
  else values.foldl (fun sum v => sum + v) 0 / (values.length : α)

/-- `calculateStdDev` from `sentinel-baseline.ts`: `0` below 3 samples,
else the square root of the sample (n−1) variance.  `sqrt` is the host
square-root routine. -/
def calculateStdDev (sqrt : α → α) (values : List α) : α :=
  if values.length < 3 then 0
  else
    let mean := calculateMean values
    let squaredDiffs := values.foldl (fun sum v => sum + (v - mean) ^ 2) 0
    sqrt (squaredDiffs / ((values.length : α) - 1))

/-- `pushSample`: append the value, evict the single oldest value once
over capacity, then recompute the running statistics. -/
def pushSample (sqrt : α → α) (profile : RollingSamples α) (value : α) :
    RollingSamples α :=
  let vals := profile.values ++ [value]
  let vals := if profile.maxSamples < vals.length then vals.drop 1 else vals
  { profile with
      values := vals
      mean := calculateMean vals
      stddev := calculateStdDev sqrt vals }

/-- Push a whole list of samples, one at a time. -/
def pushMany (sqrt : α → α) (profile : RollingSamples α) (l : List α) :
    RollingSamples α :=
  l.foldl (pushSample sqrt) profile

/-- A window freshly created by `getMetricProfile`. -/
def emptyWindow (capacity : Nat) : RollingSamples α :=
  { values := [], maxSamples := capacity, mean := 0, stddev := 0 }

/-- Result of the deviation evaluator. -/
structure DeviationResult (α : Type) where
  deviates : Bool
  zScore : α
deriving DecidableEq

/-- `deviatesFromBaseline` from `sentinel-baseline.ts`, including its
pipeline-integrity gate on `_pipelineToken` (the `token` argument). -/
def deviatesFromBaseline (token : Nat) (value : α) (profile : RollingSamples α)
    (config : SentinelConfig α) : DeviationResult α :=
  if token &&& 1 = 0 then { deviates := false, zScore := 0 }
  else if profile.values.length < config.minSamplesForBaseline then
    { deviates := false, zScore := 0 }
  else if profile.stddev < 1 / 1000 then
    { deviates := decide (1 / 1000 < |value - profile.mean|), zScore := 0 }
  else
    let zScore := (value - profile.mean) / profile.stddev
    { deviates := decide (config.deviationThreshold < |zScore|), zScore := zScore }

/-- `getOrCreateBaseline`: fetch or lazily create the player's baseline,
then prune recent detections outside the correlation window.  The pruned
baseline is written back to the store (the source mutates it in place). -/
def getOrCreateBaseline (playerId : String) (config : SentinelConfig α)
    (now : α) (store : Store α) : PlayerBaseline α × Store α :=
  let base :=
    match mapGet store playerId with
    | some b => b
    | none =>
        { playerId := playerId, createdAt := now, eventCount := 0
          metrics := [], recentDetections := [] }
  let pruned :=
    { base with
        recentDetections :=
          base.recentDetections.filter
            (fun d => decide (now - config.correlationWindowMs < d.timestamp)) }
  (pruned, mapSet store playerId pruned)

/-- `getMetricProfile`: the window for a metric, created at capacity
`config.baselineSamples` when absent.  Returns the window together with
the (possibly extended) baseline, since creation mutates the baseline. -/
def getMetricProfile (baseline : PlayerBaseline α) (metricName : String)
    (config : SentinelConfig α) : RollingSamples α × PlayerBaseline α :=
  match mapGet baseline.metrics metricName with
  | some p => (p, baseline)
  | none =>
      let p : RollingSamples α := emptyWindow config.baselineSamples
      (p, { baseline with metrics := mapSet baseline.metrics metricName p })

/-- Write an updated window back into the baseline (in the source this
happens implicitly because `pushSample` mutates the aliased window). -/
def setMetricProfile (baseline : PlayerBaseline α) (metricName : String)
    (profile : RollingSamples α) : PlayerBaseline α :=
  { baseline with metrics := mapSet baseline.metrics metricName profile }

/-- `resolveAction` from `sentinel-baseline.ts`, including its readiness
gate: highest tier whose threshold the confidence reaches, with `flag`
as the floor tier. -/
def resolveAction (token : Nat) (confidence : α) (config : SentinelConfig α) :
    ActionType :=
  if token &&& 1 = 0 then .flag
  else if config.autobanConfidence ≤ confidence then .permanent_ban
  else if config.shadowbanConfidence ≤ confidence then .shadow_ban
  else if config.flagConfidence ≤ confidence then .flag
  else .flag

/-- `recordDetection`: append a timestamped detection and keep at most
the 50 most recent entries. -/
def recordDetection (baseline : PlayerBaseline α) (module : String)
    (confidence : α) (now : α) : PlayerBaseline α :=
  let recent := baseline.recentDetections ++
    [{ module := module, confidence := confidence, timestamp := now }]
  let recent := if 50 < recent.length then recent.drop 1 else recent
  { baseline with recentDetections := recent }

/-- `[...new Set(list)]`: distinct elements in first-occurrence order. -/
def uniqueModules (l : List String) : List String :=
  l.foldl (fun acc m => if m ∈ acc then acc else acc ++ [m]) []

/-- Result of the cross-signal correlation engine. -/
structure CorrelationResult (α : Type) where
  bonus : α
  correlatedModules : List String
deriving DecidableEq

/-- `calculateCrossSignalBonus` from `sentinel-baseline.ts`. -/
def calculateCrossSignalBonus (baseline : PlayerBaseline α) :
    CorrelationResult α :=
  let recent := baseline.recentDetections
  if recent.length < 2 then { bonus := 0, correlatedModules := [] }
  else
    let um := uniqueModules (recent.map (fun d => d.module))
    if 3 ≤ um.length then { bonus := 15, correlatedModules := um }
    else if 2 ≤ um.length then { bonus := 8, correlatedModules := um }
    else { bonus := 0, correlatedModules := [] }

/-- Specification-side arithmetic mean (for comparison with the code's
`calculateMean`): the sum divided by the length. -/
def specArithMean (l : List α) : α := l.sum / (l.length : α)

/-- Specification-side sample variance with the (n−1) estimator. -/
def specSampleVariance (l : List α) : α :=
  ((l.map (fun v => (v - specArithMean l) ^ 2)).sum) / ((l.length : α) - 1)

/-- Specification-side sample standard deviation: the square root of the
(n−1) variance, for the given square-root routine. -/
def specSampleStdDev (sqrt : α → α) (l : List α) : α :=
  sqrt (specSampleVariance l)

end Core

/-! ### Telemetry payloads and detection results (rational instantiation)

The five detector modules and the dispatch pipeline operate on numbers
idealised as rationals.  Optional payload fields are `Option` values. -/

/-- Telemetry event categories (`TelemetryEventType`). -/
inductive TelemetryEventType where
  | aim_data
  | input_data
  | packet_data
  | stats_data
  | behavior_data
deriving DecidableEq

/-- Aim telemetry payload (`AimTelemetry`); the raw `aimPath` samples and
`weaponId` are never read by the analyzer and are omitted. -/
structure AimTelemetry where
  snapAngle : Option ℚ := none
  trackingSmoothness : Option ℚ := none
  headshotPct : Option ℚ := none
  timeToTarget : Option ℚ := none
  aimLockDuration : Option ℚ := none
  targetSwitchSpeed : Option ℚ := none
deriving DecidableEq

/-- Input telemetry payload (`InputTelemetry`); the raw input samples and
`deviceType` are never read by the analyzer and are omitted. -/
structure InputTelemetry where
  inputEntropy : Option ℚ := none
  timingVariance : Option ℚ := none
  recoilPattern : Option ℚ := none
  microAdjustments : Option ℚ := none
  inputFrequency : Option ℚ := none
  patternRepetition : Option ℚ := none
deriving DecidableEq

/-- Packet telemetry payload (`PacketTelemetry`); `interArrivalTimes` is
never read by the analyzer and is omitted. -/
structure PacketTelemetry where
  packetRate : Option ℚ := none
  burstCount : Option ℚ := none
  avgPacketSize : Option ℚ := none
  outOfOrder : Option ℚ := none
  duplicateRate : Option ℚ := none
  suspiciousPayloads : Option ℚ := none
deriving DecidableEq

/-- Statistics telemetry payload (`StatsTelemetry`). -/
structure StatsTelemetry where
  kdRatio : Option ℚ := none
  winRate : Option ℚ := none
  accuracyZScore : Option ℚ := none
  headshotZScore : Option ℚ := none
  spreeFrequency : Option ℚ := none
  deathlessStreak : Option ℚ := none
  matchesAnalyzed : Option ℚ := none
deriving DecidableEq

/-- Behaviour telemetry payload (`BehaviorTelemetry`). -/
structure BehaviorTelemetry where
  reactionTime : Option ℚ := none
  movementEntropy : Option ℚ := none
  preFiringRate : Option ℚ := none
  wallTrackEvents : Option ℚ := none
  spawnPrediction : Option ℚ := none
  cameraBehavior : Option ℚ := none
  engagementDistance : Option ℚ := none
deriving DecidableEq

/-- The union of telemetry payload shapes (`TelemetryData`). -/
inductive TelemetryData where
  | aim (d : AimTelemetry)
  | input (d : InputTelemetry)
  | packet (d : PacketTelemetry)
  | stats (d : StatsTelemetry)
  | behavior (d : BehaviorTelemetry)
deriving DecidableEq

/-- The cast `event.data as AimTelemetry`: reading aim fields off a
payload of a different shape yields only absent fields. -/
def TelemetryData.asAim : TelemetryData → AimTelemetry
  | .aim d => d
  | _ => {}

/-- The cast `event.data as InputTelemetry`. -/
def TelemetryData.asInput : TelemetryData → InputTelemetry
  | .input d => d
  | _ => {}

/-- The cast `event.data as PacketTelemetry`. -/
def TelemetryData.asPacket : TelemetryData → PacketTelemetry
  | .packet d => d
  | _ => {}

/-- The cast `event.data as StatsTelemetry`. -/
def TelemetryData.asStats : TelemetryData → StatsTelemetry
  | .stats d => d
  | _ => {}

/-- The cast `event.data as BehaviorTelemetry`. -/
def TelemetryData.asBehavior : TelemetryData → BehaviorTelemetry
  | .behavior d => d
  | _ => {}

/-- A telemetry event (`TelemetryEvent`).  Its `timestamp` field is
carried but never read by the engine. -/
structure TelemetryEvent where
  playerId : String
  sessionId : String
  lobbyId : String
  matchId : String
  timestamp : ℚ
  eventType : TelemetryEventType
  data : TelemetryData
deriving DecidableEq

/-- Evidence attached to a detection (`DetectionEvidence`).  The metric
snapshot keeps the optional payload values under their source names. -/
structure DetectionEvidence where
  metrics : List (String × Option ℚ)
  flags : List String
  baselineSamples : Nat
  baselineDeviations : List (String × ℚ)
  crossSignalCorrelation : List String
deriving DecidableEq

/-- A detection verdict (`DetectionResult`). -/
structure DetectionResult where
  detected : Bool
  module : String
  cheatType : CheatType
  severity : Severity
  confidence : ℚ
  evidence : DetectionEvidence
  description : String
  recommendedAction : ActionType
deriving DecidableEq

/-- Computable stand-in for `Math.sqrt` at the rational instantiation,
exact on perfect squares.  No statement below depends on its values:
every concrete run keeps each window under 3 samples (where
`calculateStdDev` is `0` by definition), and the standard-deviation
estimator statement is made at the real instantiation with `Real.sqrt`. -/
def ratSqrt (q : ℚ) : ℚ := (Nat.sqrt q.num.toNat : ℚ) / (Nat.sqrt q.den : ℚ)

/-- Score/flag/baseline accumulator threaded through a module's checks. -/
abbrev CheckAcc : Type := ℚ × List String × PlayerBaseline ℚ

/-- The push-then-evaluate idiom every baseline-tracked check uses:
fetch the metric window, push the sample (the source mutates the window
aliased inside the baseline), and evaluate the deviation of the sample
against the window that now includes it. -/
def pushAndEvaluate (token : Nat) (cfg : SentinelConfig ℚ)
    (b : PlayerBaseline ℚ) (metricName : String) (v : ℚ) :
    DeviationResult ℚ × PlayerBaseline ℚ :=
  let gp := getMetricProfile b metricName cfg
  let profile := pushSample ratSqrt gp.1 v
  let b := setMetricProfile gp.2 metricName profile
  (deviatesFromBaseline token v profile cfg, b)

/-- Push a sample into a metric window without evaluating deviation
(used by the input-timing check, which pushes but judges the raw value). -/
def pushMetricSample (cfg : SentinelConfig ℚ) (b : PlayerBaseline ℚ)
    (metricName : String) (v : ℚ) : PlayerBaseline ℚ :=
  let gp := getMetricProfile b metricName cfg
  let profile := pushSample ratSqrt gp.1 v
  setMetricProfile gp.2 metricName profile

/-- Separator in the cross-signal message (`" + "`). -/
def plusSep : String := " + "

/-- Separator between flags in a description (`"; "`). -/
def flagSep : String := "; "

/-- `flags.join("; ")`. -/
def joinFlags (flags : List String) : String := String.intercalate flagSep flags

/-- The cross-signal flag message (numeric interpolation elided). -/
def crossSignalFlag (modules : List String) : String :=
  "Cross-signal: " ++ String.intercalate plusSep modules ++
    " also flagged within 60s"

/-- Shared cross-signal step: add the correlation bonus and its flag when
the bonus is positive. -/
def applyCrossSignal (acc : CheckAcc) : CorrelationResult ℚ × CheckAcc :=
  let corr := calculateCrossSignalBonus acc.2.2
  if 0 < corr.bonus then
    (corr, (acc.1 + corr.bonus,
            acc.2.1 ++ [crossSignalFlag corr.correlatedModules], acc.2.2))
  else (corr, acc)

/-! ### Module 1: aim trajectory physics validator (`analyzeAim`) -/

/-- Degrees: maximum human snap aim. -/
def HUMAN_MAX_SNAP_ANGLE : ℚ := 120
/-- Milliseconds: fastest human reaction (aim module). -/
def HUMAN_MIN_REACTION_MS : ℚ := 80
/-- Tracking smoothness ceiling (0.95). -/
def INHUMAN_TRACKING : ℚ := 95 / 100
/-- Milliseconds: target switch speed floor. -/
def INHUMAN_SWITCH_MS : ℚ := 50
/-- Milliseconds: sustained aim lock threshold. -/
def AIM_LOCK_SUSPECT_MS : ℚ := 2000
/-- Minimum accumulated score to trigger a detection.  Each of the five
module files defines its own copy of this constant; all five equal 40. -/
def SCORE_THRESHOLD : ℚ := 40

/-- Metric key for the snap-angle window. -/
def aimSnapKey : String := "aim.snapAngle"
/-- Metric key for the tracking-smoothness window. -/
def aimTrackKey : String := "aim.trackingSmoothness"
/-- Module name of the aim analyzer. -/
def aimModuleName : String := "AimAnalysis"

/-- Aim check 1: snap angle beyond the biomechanical ceiling (+30), else
a baseline deviation on a large snap (+15). -/
def aimCheck1 (token : Nat) (cfg : SentinelConfig ℚ) (data : AimTelemetry)
    (acc : CheckAcc) : CheckAcc :=
  match data.snapAngle with
  | none => acc
  | some v =>
      let pe := pushAndEvaluate token cfg acc.2.2 aimSnapKey v
      let dev := pe.1
      if HUMAN_MAX_SNAP_ANGLE < v then
        (acc.1 + 30, acc.2.1 ++ ["Snap angle exceeds human biomechanical limit. Aimbot signature detected."], pe.2)
      else if dev.deviates = true ∧ 2 < dev.zScore ∧ 60 < v then
        (acc.1 + 15, acc.2.1 ++ ["Snap angle deviates from this player. Possible toggled aimbot."], pe.2)
      else (acc.1, acc.2.1, pe.2)

/-- Aim check 2: inhumanly smooth tracking (+25), else a baseline spike
in smoothness above 0.8 (+12). -/
def aimCheck2 (token : Nat) (cfg : SentinelConfig ℚ) (data : AimTelemetry)
    (acc : CheckAcc) : CheckAcc :=
  match data.trackingSmoothness with
  | none => acc
  | some v =>
      let pe := pushAndEvaluate token cfg acc.2.2 aimTrackKey v
      let dev := pe.1
      if INHUMAN_TRACKING < v then
        (acc.1 + 25, acc.2.1 ++ ["Tracking smoothness exceeds human capability. CV aimbot signature."], pe.2)
      else if dev.deviates = true ∧ 2 < dev.zScore ∧ 4 / 5 < v then
        (acc.1 + 12, acc.2.1 ++ ["Tracking smoothness spiked from baseline. Intermittent assist detected."], pe.2)
      else (acc.1, acc.2.1, pe.2)

/-- Aim check 3: headshot rate beyond the 99.9th percentile (+20). -/
def aimCheck3 (data : AimTelemetry) (acc : CheckAcc) : CheckAcc :=
  match data.headshotPct with
  | none => acc
  | some v =>
      if 65 < v then
        (acc.1 + 20, acc.2.1 ++ ["Headshot rate exceeds 99.9th percentile."], acc.2.2)
      else acc

/-- Aim check 4: time-to-target below neural transmission speed (+25). -/
def aimCheck4 (data : AimTelemetry) (acc : CheckAcc) : CheckAcc :=
  match data.timeToTarget with
  | none => acc
  | some v =>
      if v < HUMAN_MIN_REACTION_MS then
        (acc.1 + 25, acc.2.1 ++ ["Time-to-target below human neural transmission minimum. Hardware-assisted targeting."], acc.2.2)
      else acc

/-- Aim check 5: sustained aim lock (+15). -/
def aimCheck5 (data : AimTelemetry) (acc : CheckAcc) : CheckAcc :=
  match data.aimLockDuration with
  | none => acc
  | some v =>
      if AIM_LOCK_SUSPECT_MS < v then
        (acc.1 + 15, acc.2.1 ++ ["Aim locked on target beyond human capability."], acc.2.2)
      else acc

/-- Aim check 6: instantaneous target switching (+20). -/
def aimCheck6 (data : AimTelemetry) (acc : CheckAcc) : CheckAcc :=
  match data.targetSwitchSpeed with
  | none => acc
  | some v =>
      if v < INHUMAN_SWITCH_MS then
        (acc.1 + 20, acc.2.1 ++ ["Target switch faster than human visual processing."], acc.2.2)
      else acc

/-- The six aim checks, in source order, on a fresh accumulator. -/
def aimChecksOn (token : Nat) (cfg : SentinelConfig ℚ) (data : AimTelemetry)
    (b : PlayerBaseline ℚ) : CheckAcc :=
  aimCheck6 data (aimCheck5 data (aimCheck4 data (aimCheck3 data
    (aimCheck2 token cfg data (aimCheck1 token cfg data (0, [], b))))))

/-- Description of an aim detection (numeric interpolation elided). -/
def aimDescription (flags : List String) : String :=
  "Aim analysis flagged " ++ toString flags.length ++ " anomalies: " ++
    joinFlags flags

/-- Tail of `analyzeAim`: below the score threshold return no result
(keeping the baseline mutations), else record the detection and build
the verdict. -/
def aimFinalize (token : Nat) (now : ℚ) (cfg : SentinelConfig ℚ)
    (pid : String) (data : AimTelemetry) (corr : CorrelationResult ℚ)
    (acc : CheckAcc) (st : Store ℚ) : Option DetectionResult × Store ℚ :=
  let score := acc.1
  let flags := acc.2.1
  if score < SCORE_THRESHOLD then (none, mapSet st pid acc.2.2)
  else
    let confidence := min (score / 100) (99 / 100)
    let b := recordDetection acc.2.2 aimModuleName confidence now
    let gp := getMetricProfile b aimSnapKey cfg
    (some
      { detected := true
        module := aimModuleName
        cheatType := if 80 ≤ score then .aimbot else .aim_assist_abuse
        severity :=
          if 80 ≤ score then .critical
          else if 60 ≤ score then .high
          else .medium
        confidence := confidence
        evidence :=
          { metrics :=
              [("snapAngle", data.snapAngle),
               ("trackingSmoothness", data.trackingSmoothness),
               ("headshotPct", data.headshotPct),
               ("timeToTarget", data.timeToTarget)]
            flags := flags
            baselineSamples := gp.1.values.length
            baselineDeviations := []
            crossSignalCorrelation := corr.correlatedModules }
        description := aimDescription flags
        recommendedAction := resolveAction token confidence cfg },
     mapSet st pid gp.2)

/-- `analyzeAim` from the aim module: early-return on a foreign event
type, run the six checks against the player's baseline, apply the
cross-signal bonus, and finalize. -/
def analyzeAim (event : TelemetryEvent) (config? : Option (SentinelConfig ℚ))
    (token : Nat) (now : ℚ) (st : Store ℚ) :
    Option DetectionResult × Store ℚ :=
  if event.eventType ≠ .aim_data then (none, st)
  else
    let config := config?.getD DEFAULT_CONFIG
    let data := event.data.asAim
    let g := getOrCreateBaseline event.playerId config now st
    let ca := applyCrossSignal (aimChecksOn token config data g.1)
    aimFinalize token now config event.playerId data ca.1 ca.2 g.2

/-! ### Module 2: script device detector (`analyzeInput`) -/

/-- Normalized entropy floor: below it, definite script. -/
def NORMALIZED_ENTROPY_FLOOR : ℚ := 3 / 10
/-- Milliseconds: minimum human inter-input timing variance. -/
def HUMAN_MIN_TIMING_VARIANCE : ℚ := 1 / 2
/-- Perfect recoil compensation threshold (0.92). -/
def SCRIPT_RECOIL_THRESHOLD : ℚ := 92 / 100
/-- Micro-adjustments per second: human motor control limit. -/
def HUMAN_MAX_MICRO_ADJ : ℚ := 200
/-- Hz: standard USB polling ceiling. -/
def HUMAN_MAX_INPUT_FREQ : ℚ := 1000
/-- Pattern repetition threshold (0.85). -/
def AUTOMATION_REPETITION : ℚ := 85 / 100

/-- Metric key for the input-entropy window. -/
def inputEntropyKey : String := "input.entropy"
/-- Metric key for the input-timing-variance window. -/
def inputTimingKey : String := "input.timingVariance"
/-- Module name of the input analyzer. -/
def inputModuleName : String := "InputAnalysis"

/-- Input check 1: entropy below the script floor (+30), else a sharp
baseline entropy drop (+15). -/
def inputCheck1 (token : Nat) (cfg : SentinelConfig ℚ) (data : InputTelemetry)
    (acc : CheckAcc) : CheckAcc :=
  match data.inputEntropy with
  | none => acc
  | some v =>
      let pe := pushAndEvaluate token cfg acc.2.2 inputEntropyKey v
      let dev := pe.1
      if v < NORMALIZED_ENTROPY_FLOOR then
        (acc.1 + 30, acc.2.1 ++ ["Normalized input entropy far below human minimum. Script device confirmed."], pe.2)
      else if dev.deviates = true ∧ dev.zScore < -2 then
        (acc.1 + 15, acc.2.1 ++ ["Input entropy dropped from baseline. Possible script activation."], pe.2)
      else (acc.1, acc.2.1, pe.2)

/-- Input check 2: mechanical inter-input timing variance (+25).  The
sample is pushed into its window but judged directly, with no
deviation test. -/
def inputCheck2 (cfg : SentinelConfig ℚ) (data : InputTelemetry)
    (acc : CheckAcc) : CheckAcc :=
  match data.timingVariance with
  | none => acc
  | some v =>
      let b := pushMetricSample cfg acc.2.2 inputTimingKey v
      if v < HUMAN_MIN_TIMING_VARIANCE then
        (acc.1 + 25, acc.2.1 ++ ["Input timing variance indicates mechanical input. Script device timing fingerprint."], b)
      else (acc.1, acc.2.1, b)

/-- Input check 3: frame-perfect recoil compensation (+30). -/
def inputCheck3 (data : InputTelemetry) (acc : CheckAcc) : CheckAcc :=
  match data.recoilPattern with
  | none => acc
  | some v =>
      if SCRIPT_RECOIL_THRESHOLD < v then
        (acc.1 + 30, acc.2.1 ++ ["Recoil compensation matches script pattern."], acc.2.2)
      else acc

/-- Input check 4: inhuman micro-adjustment frequency (+20). -/
def inputCheck4 (data : InputTelemetry) (acc : CheckAcc) : CheckAcc :=
  match data.microAdjustments with
  | none => acc
  | some v =>
      if HUMAN_MAX_MICRO_ADJ < v then
        (acc.1 + 20, acc.2.1 ++ ["Micro-adjustments exceed human motor control limit. Aim assist exploitation."], acc.2.2)
      else acc

/-- Input check 5: abnormal input polling frequency (+15). -/
def inputCheck5 (data : InputTelemetry) (acc : CheckAcc) : CheckAcc :=
  match data.inputFrequency with
  | none => acc
  | some v =>
      if HUMAN_MAX_INPUT_FREQ < v then
        (acc.1 + 15, acc.2.1 ++ ["Input frequency exceeds standard USB polling rates."], acc.2.2)
      else acc

/-- Input check 6: automated input pattern repetition (+25). -/
def inputCheck6 (data : InputTelemetry) (acc : CheckAcc) : CheckAcc :=
  match data.patternRepetition with
  | none => acc
  | some v =>
      if AUTOMATION_REPETITION < v then
        (acc.1 + 25, acc.2.1 ++ ["Input pattern repetition indicates automation."], acc.2.2)
      else acc

/-- The six input checks, in source order, on a fresh accumulator. -/
def inputChecksOn (token : Nat) (cfg : SentinelConfig ℚ) (data : InputTelemetry)
    (b : PlayerBaseline ℚ) : CheckAcc :=
  inputCheck6 data (inputCheck5 data (inputCheck4 data (inputCheck3 data
    (inputCheck2 cfg data (inputCheck1 token cfg data (0, [], b))))))

/-- Description of an input detection (numeric interpolation elided). -/
def inputDescription (flags : List String) : String :=
  "Input analysis detected " ++ toString flags.length ++ " anomalies: " ++
    joinFlags flags

/-- Tail of `analyzeInput`. -/
def inputFinalize (token : Nat) (now : ℚ) (cfg : SentinelConfig ℚ)
    (pid : String) (data : InputTelemetry) (corr : CorrelationResult ℚ)
    (acc : CheckAcc) (st : Store ℚ) : Option DetectionResult × Store ℚ :=
  let score := acc.1
  let flags := acc.2.1
  if score < SCORE_THRESHOLD then (none, mapSet st pid acc.2.2)
  else
    let confidence := min (score / 100) (99 / 100)
    let b := recordDetection acc.2.2 inputModuleName confidence now
    let gp := getMetricProfile b inputEntropyKey cfg
    (some
      { detected := true
        module := inputModuleName
        cheatType := if 70 ≤ score then .cronus_zen else .macro_script
        severity :=
          if 80 ≤ score then .critical
          else if 60 ≤ score then .high
          else .medium
        confidence := confidence
        evidence :=
          { metrics :=
              [("inputEntropy", data.inputEntropy),
               ("timingVariance", data.timingVariance),
               ("recoilPattern", data.recoilPattern),
               ("microAdjustments", data.microAdjustments)]
            flags := flags
            baselineSamples := gp.1.values.length
            baselineDeviations := []
            crossSignalCorrelation := corr.correlatedModules }
        description := inputDescription flags
        recommendedAction := resolveAction token confidence cfg },
     mapSet st pid gp.2)

/-- `analyzeInput` from the input module. -/
def analyzeInput (event : TelemetryEvent) (config? : Option (SentinelConfig ℚ))
    (token : Nat) (now : ℚ) (st : Store ℚ) :
    Option DetectionResult × Store ℚ :=
  if event.eventType ≠ .input_data then (none, st)
  else
    let config := config?.getD DEFAULT_CONFIG
    let data := event.data.asInput
    let g := getOrCreateBaseline event.playerId config now st
    let ca := applyCrossSignal (inputChecksOn token config data g.1)
    inputFinalize token now config event.playerId data ca.1 ca.2 g.2

/-! ### Module 3: neural packet analyzer (`analyzePackets`) -/

/-- Packets per second: anomaly threshold. -/
def CHEAT_PACKET_RATE : ℚ := 300
/-- Burst events per window threshold. -/
def BURST_THRESHOLD : ℚ := 15
/-- Bytes: normal maximum payload. -/
def MAX_PACKET_SIZE : ℚ := 2048
/-- Percentage threshold for out-of-order packets. -/
def OUT_OF_ORDER_THRESHOLD : ℚ := 10
/-- Percentage threshold for duplicate packets. -/
def DUPLICATE_THRESHOLD : ℚ := 5
/-- Count threshold for suspicious payload patterns. -/
def SUSPICIOUS_PAYLOAD_THRESHOLD : ℚ := 3

/-- Metric key for the packet-rate window. -/
def packetRateKey : String := "packet.rate"
/-- Module name of the packet analyzer. -/
def packetModuleName : String := "PacketAnalysis"

/-- Packet check 1: rate above the cheat threshold (+25), else a
baseline rate spike (+12). -/
def packetCheck1 (token : Nat) (cfg : SentinelConfig ℚ)
    (data : PacketTelemetry) (acc : CheckAcc) : CheckAcc :=
  match data.packetRate with
  | none => acc
  | some v =>
      let pe := pushAndEvaluate token cfg acc.2.2 packetRateKey v
      let dev := pe.1
      if CHEAT_PACKET_RATE < v then
        (acc.1 + 25, acc.2.1 ++ ["Packet rate is a multiple of normal baseline. Cheat data exchange signature."], pe.2)
      else if dev.deviates = true ∧ 5 / 2 < dev.zScore then
        (acc.1 + 12, acc.2.1 ++ ["Packet rate spiked from baseline. Combat-correlated traffic anomaly."], pe.2)
      else (acc.1, acc.2.1, pe.2)

/-- Packet check 2: burst pattern (+30). -/
def packetCheck2 (data : PacketTelemetry) (acc : CheckAcc) : CheckAcc :=
  match data.burstCount with
  | none => acc
  | some v =>
      if BURST_THRESHOLD < v then
        (acc.1 + 30, acc.2.1 ++ ["Packet bursts beyond normal gameplay. Cheat polling pattern."], acc.2.2)
      else acc

/-- Packet check 3: payload size anomaly (+20). -/
def packetCheck3 (data : PacketTelemetry) (acc : CheckAcc) : CheckAcc :=
  match data.avgPacketSize with
  | none => acc
  | some v =>
      if MAX_PACKET_SIZE < v then
        (acc.1 + 20, acc.2.1 ++ ["Average packet size exceeds normal maximum. Additional data payload detected."], acc.2.2)
      else acc

/-- Packet check 4: out-of-order packets (+25). -/
def packetCheck4 (data : PacketTelemetry) (acc : CheckAcc) : CheckAcc :=
  match data.outOfOrder with
  | none => acc
  | some v =>
      if OUT_OF_ORDER_THRESHOLD < v then
        (acc.1 + 25, acc.2.1 ++ ["Out-of-order packets indicate packet injection."], acc.2.2)
      else acc

/-- Packet check 5: duplicate packets (+20). -/
def packetCheck5 (data : PacketTelemetry) (acc : CheckAcc) : CheckAcc :=
  match data.duplicateRate with
  | none => acc
  | some v =>
      if DUPLICATE_THRESHOLD < v then
        (acc.1 + 20, acc.2.1 ++ ["Duplicate packets detected. Replay attack signature."], acc.2.2)
      else acc

/-- Packet check 6: suspicious payload patterns (+30). -/
def packetCheck6 (data : PacketTelemetry) (acc : CheckAcc) : CheckAcc :=
  match data.suspiciousPayloads with
  | none => acc
  | some v =>
      if SUSPICIOUS_PAYLOAD_THRESHOLD < v then
        (acc.1 + 30, acc.2.1 ++ ["Suspicious payload patterns match known cheat signatures."], acc.2.2)
      else acc

/-- The six packet checks, in source order, on a fresh accumulator. -/
def packetChecksOn (token : Nat) (cfg : SentinelConfig ℚ) (data : PacketTelemetry)
    (b : PlayerBaseline ℚ) : CheckAcc :=
  packetCheck6 data (packetCheck5 data (packetCheck4 data (packetCheck3 data
    (packetCheck2 data (packetCheck1 token cfg data (0, [], b))))))

/-- Description of a packet detection (numeric interpolation elided). -/
def packetDescription (flags : List String) : String :=
  "Packet analysis flagged " ++ toString flags.length ++ " anomalies: " ++
    joinFlags flags

/-- The packet cheat-type rule: `duplicateRate > DUPLICATE_THRESHOLD`,
with an absent field comparing as not-greater. -/
def packetCheatType (data : PacketTelemetry) : CheatType :=
  match data.duplicateRate with
  | some v => if DUPLICATE_THRESHOLD < v then .packet_injection else .network_manipulation
  | none => .network_manipulation

/-- Tail of `analyzePackets`. -/
def packetFinalize (token : Nat) (now : ℚ) (cfg : SentinelConfig ℚ)
    (pid : String) (data : PacketTelemetry) (corr : CorrelationResult ℚ)
    (acc : CheckAcc) (st : Store ℚ) : Option DetectionResult × Store ℚ :=
  let score := acc.1
  let flags := acc.2.1
  if score < SCORE_THRESHOLD then (none, mapSet st pid acc.2.2)
  else
    let confidence := min (score / 100) (99 / 100)
    let b := recordDetection acc.2.2 packetModuleName confidence now
    let gp := getMetricProfile b packetRateKey cfg
    (some
      { detected := true
        module := packetModuleName
        cheatType := packetCheatType data
        severity :=
          if 80 ≤ score then .critical
          else if 60 ≤ score then .high
          else .medium
        confidence := confidence
        evidence :=
          { metrics :=
              [("packetRate", data.packetRate),
               ("burstCount", data.burstCount),
               ("avgPacketSize", data.avgPacketSize),
               ("outOfOrder", data.outOfOrder)]
            flags := flags
            baselineSamples := gp.1.values.length
            baselineDeviations := []
            crossSignalCorrelation := corr.correlatedModules }
        description := packetDescription flags
        recommendedAction := resolveAction token confidence cfg },
     mapSet st pid gp.2)

/-- `analyzePackets` from the packet module. -/
def analyzePackets (event : TelemetryEvent)
    (config? : Option (SentinelConfig ℚ)) (token : Nat) (now : ℚ)
    (st : Store ℚ) : Option DetectionResult × Store ℚ :=
  if event.eventType ≠ .packet_data then (none, st)
  else
    let config := config?.getD DEFAULT_CONFIG
    let data := event.data.asPacket
    let g := getOrCreateBaseline event.playerId config now st
    let ca := applyCrossSignal (packetChecksOn token config data g.1)
    packetFinalize token now config event.playerId data ca.1 ca.2 g.2

/-! ### Module 4: statistical impossibility engine (`analyzeStats`) -/

/-- K/D ratio no human maintains consistently. -/
def IMPOSSIBLE_KD : ℚ := 8
/-- Win rate ceiling (percent). -/
def IMPOSSIBLE_WIN_RATE : ℚ := 85
/-- Sigma threshold for impossibility (3.5). -/
def EXTREME_Z_SCORE : ℚ := 7 / 2
/-- Kill spree frequency threshold (0.6). -/
def ANOMALOUS_SPREE : ℚ := 3 / 5
/-- Deathless streak threshold. -/
def INHUMAN_DEATHLESS : ℚ := 40

/-- Metric key for the K/D-ratio window. -/
def statsKdKey : String := "stats.kdRatio"
/-- Module name of the statistics analyzer. -/
def statsModuleName : String := "StatisticalAnalysis"

/-- Stats check 1: impossible K/D (+30), else a baseline K/D spike above
4 (+15). -/
def statsCheck1 (token : Nat) (cfg : SentinelConfig ℚ) (data : StatsTelemetry)
    (acc : CheckAcc) : CheckAcc :=
  match data.kdRatio with
  | none => acc
  | some v =>
      let pe := pushAndEvaluate token cfg acc.2.2 statsKdKey v
      let dev := pe.1
      if IMPOSSIBLE_KD < v then
        (acc.1 + 30, acc.2.1 ++ ["K/D ratio statistically impossible to maintain."], pe.2)
      else if dev.deviates = true ∧ 5 / 2 < dev.zScore ∧ 4 < v then
        (acc.1 + 15, acc.2.1 ++ ["K/D ratio spiked from baseline. Sudden skill jump detected."], pe.2)
      else (acc.1, acc.2.1, pe.2)

/-- Stats check 2: impossible win rate (+20). -/
def statsCheck2 (data : StatsTelemetry) (acc : CheckAcc) : CheckAcc :=
  match data.winRate with
  | none => acc
  | some v =>
      if IMPOSSIBLE_WIN_RATE < v then
        (acc.1 + 20, acc.2.1 ++ ["Win rate exceeds statistical bounds."], acc.2.2)
      else acc

/-- Stats check 3: extreme accuracy z-score (+25). -/
def statsCheck3 (data : StatsTelemetry) (acc : CheckAcc) : CheckAcc :=
  match data.accuracyZScore with
  | none => acc
  | some v =>
      if EXTREME_Z_SCORE < v then
        (acc.1 + 25, acc.2.1 ++ ["Accuracy z-score far from population mean."], acc.2.2)
      else acc

/-- Stats check 4: extreme headshot z-score (+25). -/
def statsCheck4 (data : StatsTelemetry) (acc : CheckAcc) : CheckAcc :=
  match data.headshotZScore with
  | none => acc
  | some v =>
      if EXTREME_Z_SCORE < v then
        (acc.1 + 25, acc.2.1 ++ ["Headshot z-score exceeds normal distribution. Automated headshot targeting."], acc.2.2)
      else acc

/-- Stats check 5: anomalous kill-spree frequency (+15). -/
def statsCheck5 (data : StatsTelemetry) (acc : CheckAcc) : CheckAcc :=
  match data.spreeFrequency with
  | none => acc
  | some v =>
      if ANOMALOUS_SPREE < v then
        (acc.1 + 15, acc.2.1 ++ ["Kill spree frequency anomalous. Consistent domination pattern."], acc.2.2)
      else acc

/-- Stats check 6: inhuman deathless streak (+20). -/
def statsCheck6 (data : StatsTelemetry) (acc : CheckAcc) : CheckAcc :=
  match data.deathlessStreak with
  | none => acc
  | some v =>
      if INHUMAN_DEATHLESS < v then
        (acc.1 + 20, acc.2.1 ++ ["Deathless streak exceeds historical records."], acc.2.2)
      else acc

/-- The six statistics checks, in source order, on a fresh accumulator. -/
def statsChecksOn (token : Nat) (cfg : SentinelConfig ℚ) (data : StatsTelemetry)
    (b : PlayerBaseline ℚ) : CheckAcc :=
  statsCheck6 data (statsCheck5 data (statsCheck4 data (statsCheck3 data
    (statsCheck2 data (statsCheck1 token cfg data (0, [], b))))))

/-- Description of a statistics detection (numeric interpolation elided). -/
def statsDescription (flags : List String) : String :=
  "Statistical analysis flagged " ++ toString flags.length ++
    " impossibilities: " ++ joinFlags flags

/-- Tail of `analyzeStats`. -/
def statsFinalize (token : Nat) (now : ℚ) (cfg : SentinelConfig ℚ)
    (pid : String) (data : StatsTelemetry) (corr : CorrelationResult ℚ)
    (acc : CheckAcc) (st : Store ℚ) : Option DetectionResult × Store ℚ :=
  let score := acc.1
  let flags := acc.2.1
  if score < SCORE_THRESHOLD then (none, mapSet st pid acc.2.2)
  else
    let confidence := min (score / 100) (99 / 100)
    let b := recordDetection acc.2.2 statsModuleName confidence now
    let gp := getMetricProfile b statsKdKey cfg
    (some
      { detected := true
        module := statsModuleName
        cheatType := .statistical_impossibility
        severity :=
          if 80 ≤ score then .critical
          else if 60 ≤ score then .high
          else .medium
        confidence := confidence
        evidence :=
          { metrics :=
              [("kdRatio", data.kdRatio),
               ("winRate", data.winRate),
               ("accuracyZScore", data.accuracyZScore),
               ("headshotZScore", data.headshotZScore)]
            flags := flags
            baselineSamples := gp.1.values.length
            baselineDeviations := []
            crossSignalCorrelation := corr.correlatedModules }
        description := statsDescription flags
        recommendedAction := resolveAction token confidence cfg },
     mapSet st pid gp.2)

/-- `analyzeStats` from the statistics module. -/
def analyzeStats (event : TelemetryEvent)
    (config? : Option (SentinelConfig ℚ)) (token : Nat) (now : ℚ)
    (st : Store ℚ) : Option DetectionResult × Store ℚ :=
  if event.eventType ≠ .stats_data then (none, st)
  else
    let config := config?.getD DEFAULT_CONFIG
    let data := event.data.asStats
    let g := getOrCreateBaseline event.playerId config now st
    let ca := applyCrossSignal (statsChecksOn token config data g.1)
    statsFinalize token now config event.playerId data ca.1 ca.2 g.2

/-! ### Module 5: behavioural analysis (`analyzeBehavior`) -/

/-- Milliseconds: absolute human reaction floor (behaviour module). -/
def HUMAN_MIN_REACTION : ℚ := 100
/-- Movement entropy floor (0.2). -/
def AUTOMATION_MOVEMENT : ℚ := 1 / 5
/-- Pre-fire percentage threshold. -/
def WALLHACK_PREFIRE_RATE : ℚ := 40
/-- Wall-tracking events threshold. -/
def WALL_TRACK_THRESHOLD : ℚ := 5
/-- Spawn prediction accuracy threshold (percent). -/
def ESP_SPAWN_PREDICTION : ℚ := 70
/-- Camera snap pattern threshold (0.8). -/
def CHEAT_CAMERA_PATTERN : ℚ := 4 / 5

/-- Metric key for the reaction-time window. -/
def behaviorReactionKey : String := "behavior.reactionTime"
/-- Module name of the behaviour analyzer. -/
def behaviorModuleName : String := "BehavioralAnalysis"

/-- Behaviour check 1: reaction below the neural floor (+30), else a
sharp baseline reaction drop under 150ms (+15). -/
def behaviorCheck1 (token : Nat) (cfg : SentinelConfig ℚ)
    (data : BehaviorTelemetry) (acc : CheckAcc) : CheckAcc :=
  match data.reactionTime with
  | none => acc
  | some v =>
      let pe := pushAndEvaluate token cfg acc.2.2 behaviorReactionKey v
      let dev := pe.1
      if v < HUMAN_MIN_REACTION then
        (acc.1 + 30, acc.2.1 ++ ["Reaction time below human neural transmission minimum."], pe.2)
      else if dev.deviates = true ∧ dev.zScore < -2 ∧ v < 150 then
        (acc.1 + 15, acc.2.1 ++ ["Reaction time dropped from player baseline. Possible assistance toggle."], pe.2)
      else (acc.1, acc.2.1, pe.2)

/-- Behaviour check 2: automated movement (+20). -/
def behaviorCheck2 (data : BehaviorTelemetry) (acc : CheckAcc) : CheckAcc :=
  match data.movementEntropy with
  | none => acc
  | some v =>
      if v < AUTOMATION_MOVEMENT then
        (acc.1 + 20, acc.2.1 ++ ["Movement entropy indicates automated movement."], acc.2.2)
      else acc

/-- Behaviour check 3: wallhack pre-firing (+30). -/
def behaviorCheck3 (data : BehaviorTelemetry) (acc : CheckAcc) : CheckAcc :=
  match data.preFiringRate with
  | none => acc
  | some v =>
      if WALLHACK_PREFIRE_RATE < v then
        (acc.1 + 30, acc.2.1 ++ ["Pre-firing rate indicates advance knowledge of enemy positions."], acc.2.2)
      else acc

/-- Behaviour check 4: wall-tracking events (+35). -/
def behaviorCheck4 (data : BehaviorTelemetry) (acc : CheckAcc) : CheckAcc :=
  match data.wallTrackEvents with
  | none => acc
  | some v =>
      if WALL_TRACK_THRESHOLD < v then
        (acc.1 + 35, acc.2.1 ++ ["Camera tracked enemies through solid geometry."], acc.2.2)
      else acc

/-- Behaviour check 5: spawn prediction (+25). -/
def behaviorCheck5 (data : BehaviorTelemetry) (acc : CheckAcc) : CheckAcc :=
  match data.spawnPrediction with
  | none => acc
  | some v =>
      if ESP_SPAWN_PREDICTION < v then
        (acc.1 + 25, acc.2.1 ++ ["Spawn prediction accuracy indicates ESP."], acc.2.2)
      else acc

/-- Behaviour check 6: camera snap pattern (+20). -/
def behaviorCheck6 (data : BehaviorTelemetry) (acc : CheckAcc) : CheckAcc :=
  match data.cameraBehavior with
  | none => acc
  | some v =>
      if CHEAT_CAMERA_PATTERN < v then
        (acc.1 + 20, acc.2.1 ++ ["Camera snap pattern matches known overlay signatures."], acc.2.2)
      else acc

/-- The six behaviour checks, in source order, on a fresh accumulator. -/
def behaviorChecksOn (token : Nat) (cfg : SentinelConfig ℚ)
    (data : BehaviorTelemetry) (b : PlayerBaseline ℚ) : CheckAcc :=
  behaviorCheck6 data (behaviorCheck5 data (behaviorCheck4 data
    (behaviorCheck3 data (behaviorCheck2 data
      (behaviorCheck1 token cfg data (0, [], b))))))

/-- Description of a behaviour detection (numeric interpolation elided). -/
def behaviorDescription (flags : List String) : String :=
  "Behavioral analysis flagged " ++ toString flags.length ++
    " anomalies: " ++ joinFlags flags

/-- Tail of `analyzeBehavior`. -/
def behaviorFinalize (token : Nat) (now : ℚ) (cfg : SentinelConfig ℚ)
    (pid : String) (data : BehaviorTelemetry) (corr : CorrelationResult ℚ)
    (acc : CheckAcc) (st : Store ℚ) : Option DetectionResult × Store ℚ :=
  let score := acc.1
  let flags := acc.2.1
  if score < SCORE_THRESHOLD then (none, mapSet st pid acc.2.2)
  else
    let confidence := min (score / 100) (99 / 100)
    let b := recordDetection acc.2.2 behaviorModuleName confidence now
    let gp := getMetricProfile b behaviorReactionKey cfg
    (some
      { detected := true
        module := behaviorModuleName
        cheatType := if 70 ≤ score then .wallhack_esp else .suspicious_behavior
        severity :=
          if 80 ≤ score then .critical
          else if 60 ≤ score then .high
          else .medium
        confidence := confidence
        evidence :=
          { metrics :=
              [("reactionTime", data.reactionTime),
               ("preFiringRate", data.preFiringRate),
               ("wallTrackEvents", data.wallTrackEvents),
               ("spawnPrediction", data.spawnPrediction)]
            flags := flags
            baselineSamples := gp.1.values.length
            baselineDeviations := []
            crossSignalCorrelation := corr.correlatedModules }
        description := behaviorDescription flags
        recommendedAction := resolveAction token confidence cfg },
     mapSet st pid gp.2)

/-- `analyzeBehavior` from the behaviour module. -/
def analyzeBehavior (event : TelemetryEvent)
    (config? : Option (SentinelConfig ℚ)) (token : Nat) (now : ℚ)
    (st : Store ℚ) : Option DetectionResult × Store ℚ :=
  if event.eventType ≠ .behavior_data then (none, st)
  else
    let config := config?.getD DEFAULT_CONFIG
    let data := event.data.asBehavior
    let g := getOrCreateBaseline event.playerId config now st
    let ca := applyCrossSignal (behaviorChecksOn token config data g.1)
    behaviorFinalize token now config event.playerId data ca.1 ca.2 g.2

/-! ### The detection-dispatch pipeline (`sentinel-core.ts`) -/

/-- A registered detector plug-in.  A handler may fail (`Except.error`
models a thrown exception, caught at the dispatch boundary). -/
structure DetectorModule where
  name : String
  handler : TelemetryEvent → Option (SentinelConfig ℚ) → Nat → ℚ →
    Store ℚ → Except String (Option DetectionResult × Store ℚ)

/-- The aim module entry of the registry. -/
def aimDetector : DetectorModule :=
  { name := aimModuleName
    handler := fun e c token now st => .ok (analyzeAim e c token now st) }

/-- The input module entry of the registry. -/
def inputDetector : DetectorModule :=
  { name := inputModuleName
    handler := fun e c token now st => .ok (analyzeInput e c token now st) }

/-- The packet module entry of the registry. -/
def packetDetector : DetectorModule :=
  { name := packetModuleName
    handler := fun e c token now st => .ok (analyzePackets e c token now st) }

/-- The statistics module entry of the registry. -/
def statsDetector : DetectorModule :=
  { name := statsModuleName
    handler := fun e c token now st => .ok (analyzeStats e c token now st) }

/-- The behaviour module entry of the registry. -/
def behaviorDetector : DetectorModule :=
  { name := behaviorModuleName
    handler := fun e c token now st => .ok (analyzeBehavior e c token now st) }

/-- The fixed, ordered registry `MODULES` from `sentinel-core.ts`. -/
def MODULES : List DetectorModule :=
  [aimDetector, inputDetector, packetDetector, statsDetector, behaviorDetector]

/-- `if (result && result.detected) results.push(result)`. -/
def pushIfDetected (results : List DetectionResult)
    (result? : Option DetectionResult) : List DetectionResult :=
  match result? with
  | some r => if r.detected = true then results ++ [r] else results
  | none => results

/-- One iteration of the dispatch loop: run a module's handler on the
current store; a thrown error is caught and treated as no result,
leaving results and store untouched. -/
def runStep (e : TelemetryEvent) (c? : Option (SentinelConfig ℚ))
    (token : Nat) (now : ℚ) (acc : List DetectionResult × Store ℚ)
    (m : DetectorModule) : List DetectionResult × Store ℚ :=
  match m.handler e c? token now acc.2 with
  | .error _ => acc
  | .ok r => (pushIfDetected acc.1 r.1, r.2)

/-- The dispatch loop over a registry, in registration order. -/
def runModules (mods : List DetectorModule) (e : TelemetryEvent)
    (c? : Option (SentinelConfig ℚ)) (token : Nat) (now : ℚ)
    (st : Store ℚ) : List DetectionResult × Store ℚ :=
  mods.foldl (runStep e c? token now) ([], st)

/-- `processTelemetry` from `sentinel-core.ts`: gate on the pipeline
readiness bit, then dispatch the event to every registered module. -/
def processTelemetry (e : TelemetryEvent) (c? : Option (SentinelConfig ℚ))
    (token : Nat) (now : ℚ) (st : Store ℚ) :
    List DetectionResult × Store ℚ :=
  if token &&& 1 = 0 then ([], st)
  else runModules MODULES e c? token now st

/-- Replay a sequence of telemetry events; each step carries the wall
clock reading `Date.now()` observed while that event is processed.
Returns the concatenated detection results and the final store. -/
def runSequence (steps : List (TelemetryEvent × ℚ))
    (c? : Option (SentinelConfig ℚ)) (token : Nat) (st : Store ℚ) :
    List DetectionResult × Store ℚ :=
  steps.foldl
    (fun acc s =>
      let r := processTelemetry s.1 c? token s.2 acc.2
      (acc.1 ++ r.1, r.2))
    ([], st)

/-! ### Wall-clock shifting (for the reproducibility analysis) -/

/-- Shift a recorded detection's wall-clock timestamp. -/
def shiftDetection (delta : ℚ) (d : TimestampedDetection ℚ) :
    TimestampedDetection ℚ :=
  { d with timestamp := d.timestamp + delta }

/-- Shift every wall-clock timestamp stored in a baseline. -/
def shiftBaseline (delta : ℚ) (b : PlayerBaseline ℚ) : PlayerBaseline ℚ :=
  { b with
      createdAt := b.createdAt + delta
      recentDetections := b.recentDetections.map (shiftDetection delta) }

/-- Shift every wall-clock timestamp stored in the baseline store. -/
def shiftStore (delta : ℚ) (st : Store ℚ) : Store ℚ :=
  st.map (fun p => (p.1, shiftBaseline delta p.2))

/-- Shift the wall-clock reading of every replay step (the events
themselves, including their `timestamp` fields, are unchanged). -/
def shiftSteps (delta : ℚ) (steps : List (TelemetryEvent × ℚ)) :
    List (TelemetryEvent × ℚ) :=
  steps.map (fun s => (s.1, s.2 + delta))

/-! ### Concrete fixtures used by the verification scenarios -/

/-- The player id used by the concrete scenarios. -/
def pid1 : String := "p1"

/-- Aim payload with `snapAngle = 150` and `timeToTarget = 50`, all
other fields absent. -/
def aimData0 : AimTelemetry :=
  { snapAngle := some 150, timeToTarget := some 50 }

/-- The end-to-end scenario event: `aim_data` with `aimData0`. -/
def e0 : TelemetryEvent :=
  { playerId := "p1", sessionId := "s1", lobbyId := "l1", matchId := "m1"
    timestamp := 0, eventType := .aim_data, data := .aim aimData0 }

/-- Input payload with low entropy and low timing variance. -/
def inputData0 : InputTelemetry :=
  { inputEntropy := some (1 / 10), timingVariance := some (1 / 10) }

/-- An `input_data` event for the same player. -/
def e1 : TelemetryEvent :=
  { playerId := "p1", sessionId := "s1", lobbyId := "l1", matchId := "m1"
    timestamp := 0, eventType := .input_data, data := .input inputData0 }

/-- Behaviour payload with inhuman reaction and low movement entropy. -/
def behaviorData0 : BehaviorTelemetry :=
  { reactionTime := some 50, movementEntropy := some (1 / 10) }

/-- A `behavior_data` event for the same player. -/
def e2 : TelemetryEvent :=
  { playerId := "p1", sessionId := "s1", lobbyId := "l1", matchId := "m1"
    timestamp := 0, eventType := .behavior_data, data := .behavior behaviorData0 }

/-- Replay of the three events with every step processed at wall-clock
instant 0. -/
def steps1 : List (TelemetryEvent × ℚ) := [(e1, 0), (e2, 0), (e0, 0)]

/-- The same replay, except the third event is processed 200 seconds of
wall-clock time later (the events themselves are identical). -/
def steps2 : List (TelemetryEvent × ℚ) := [(e1, 0), (e2, 0), (e0, 200000)]

/-- A window of five samples whose stored statistics are consistent with
its contents (mean 1, sample standard deviation 1). -/
def demoProfile : RollingSamples ℚ :=
  { values := [0, 0, 1, 2, 2], maxSamples := 50, mean := 1, stddev := 1 }

/-- A baseline whose recent-detection log holds two detections from two
distinct modules. -/
def demoBaseline : PlayerBaseline ℚ :=
  { playerId := "p1", createdAt := 0, eventCount := 0, metrics := []
    recentDetections :=
      [{ module := "InputAnalysis", confidence := 1 / 2, timestamp := 0 },
       { module := "AimAnalysis", confidence := 1 / 2, timestamp := 0 }] }

/-- A detector plug-in that always throws. -/
def boomDetector : DetectorModule :=
  { name := "Boom", handler := fun _ _ _ _ _ => .error ("boom") }

end Sentinel

/-! ### Intermediate states of the concrete replay -/

namespace Sentinel

/-- The entropy window after the first replay event. -/
def entropyWin : RollingSamples ℚ :=
  { values := [1 / 10], maxSamples := 50, mean := 1 / 10, stddev := 0 }

/-- The timing-variance window after the first replay event. -/
def timingWin : RollingSamples ℚ :=
  { values := [1 / 10], maxSamples := 50, mean := 1 / 10, stddev := 0 }

/-- The reaction-time window after the second replay event. -/
def reactionWin : RollingSamples ℚ :=
  { values := [50], maxSamples := 50, mean := 50, stddev := 0 }

/-- The baseline of player `p1` after the first replay event. -/
def baselineAfter1 : PlayerBaseline ℚ :=
  { playerId := "p1", createdAt := 0, eventCount := 0
    metrics := [("input.entropy", entropyWin), ("input.timingVariance", timingWin)]
    recentDetections := [{ module := "InputAnalysis", confidence := 11 / 20, timestamp := 0 }] }

/-- The store after the first replay event. -/
def storeAfter1 : Store ℚ := [("p1", baselineAfter1)]

/-- The baseline of player `p1` after the second replay event. -/
def baselineAfter2 : PlayerBaseline ℚ :=
  { playerId := "p1", createdAt := 0, eventCount := 0
    metrics := [("input.entropy", entropyWin), ("input.timingVariance", timingWin),
                ("behavior.reactionTime", reactionWin)]
    recentDetections :=
      [{ module := "InputAnalysis", confidence := 11 / 20, timestamp := 0 },
       { module := "BehavioralAnalysis", confidence := 1 / 2, timestamp := 0 }] }

/-- The store after the second replay event. -/
def storeAfter2 : Store ℚ := [("p1", baselineAfter2)]

/-- A placeholder verdict used only to project an optional result. -/
def defaultResult : DetectionResult :=
  { detected := false, module := "", cheatType := .aimbot, severity := .low
    confidence := 0
    evidence :=
      { metrics := [], flags := [], baselineSamples := 0
        baselineDeviations := [], crossSignalCorrelation := [] }
    description := "", recommendedAction := .flag }

/-- The verdict the aim module produces on the end-to-end scenario. -/
def c10result : DetectionResult :=
  ((analyzeAim e0 none 1 0 []).1).getD defaultResult


/-! ## Theorems

String-literal comparison facts used by the concrete evaluations. -/

@[simp] theorem beq_p1_p1 : (("p1" : String) == "p1") = true := by simp
@[simp] theorem eq_p1_p1 : (("p1" : String) = "p1") ↔ True := by simp
@[simp] theorem beq_ie_ie : (("input.entropy" : String) == "input.entropy") = true := by simp
@[simp] theorem beq_itv_itv : (("input.timingVariance" : String) == "input.timingVariance") = true := by simp
@[simp] theorem beq_brt_brt : (("behavior.reactionTime" : String) == "behavior.reactionTime") = true := by simp
@[simp] theorem beq_as_as : (("aim.snapAngle" : String) == "aim.snapAngle") = true := by simp
@[simp] theorem beq_ie_itv : (("input.entropy" : String) == "input.timingVariance") = false := by simp
@[simp] theorem beq_ie_brt : (("input.entropy" : String) == "behavior.reactionTime") = false := by simp
@[simp] theorem beq_itv_brt : (("input.timingVariance" : String) == "behavior.reactionTime") = false := by simp
@[simp] theorem beq_ie_as : (("input.entropy" : String) == "aim.snapAngle") = false := by simp
@[simp] theorem beq_itv_as : (("input.timingVariance" : String) == "aim.snapAngle") = false := by simp
@[simp] theorem beq_brt_as : (("behavior.reactionTime" : String) == "aim.snapAngle") = false := by simp
@[simp] theorem ne_ie_itv : (("input.entropy" : String) = "input.timingVariance") ↔ False := by simp
@[simp] theorem ne_ie_brt : (("input.entropy" : String) = "behavior.reactionTime") ↔ False := by simp
@[simp] theorem ne_itv_brt : (("input.timingVariance" : String) = "behavior.reactionTime") ↔ False := by simp
@[simp] theorem ne_ie_as : (("input.entropy" : String) = "aim.snapAngle") ↔ False := by simp
@[simp] theorem ne_itv_as : (("input.timingVariance" : String) = "aim.snapAngle") ↔ False := by simp
@[simp] theorem ne_brt_as : (("behavior.reactionTime" : String) = "aim.snapAngle") ↔ False := by simp
@[simp] theorem ne_ba_ia : (("BehavioralAnalysis" : String) = "InputAnalysis") ↔ False := by simp
@[simp] theorem ne_ia_ba : (("InputAnalysis" : String) = "BehavioralAnalysis") ↔ False := by simp
@[simp] theorem beq_ba_ia : (("BehavioralAnalysis" : String) == "InputAnalysis") = false := by simp
@[simp] theorem beq_ia_ba : (("InputAnalysis" : String) == "BehavioralAnalysis") = false := by simp

/-! ### Statistical core lemmas -/

section CoreLemmas

variable {α : Type} [LinearOrderedField α]

/-- The reduce-style summation of the source equals the list sum. -/
theorem foldl_add_sum (l : List α) :
    ∀ a : α, l.foldl (fun s v => s + v) a = a + l.sum := by
  induction l with
  | nil => intro a; simp
  | cons x xs ih => intro a; simp [List.foldl, ih, add_assoc]

/-- The reduce-style summation of squared differences equals the sum of
the mapped list. -/
theorem foldl_add_sq_sum (m : α) (l : List α) :
    ∀ a : α, l.foldl (fun s v => s + (v - m) ^ 2) a
      = a + (l.map (fun v => (v - m) ^ 2)).sum := by
  induction l with
  | nil => intro a; simp
  | cons x xs ih => intro a; simp [List.foldl, ih, add_assoc]

/-- `calculateMean` computes the arithmetic mean (with the `0/0 = 0`
convention agreeing with the source's empty-list guard). -/
theorem calculateMean_eq (l : List α) : calculateMean l = specArithMean l := by
  unfold calculateMean specArithMean
  rcases eq_or_ne l.length 0 with h | h
  · rw [if_pos h]
    rw [List.length_eq_zero] at h
    subst h
    simp
  · rw [if_neg h, foldl_add_sum l 0, zero_add]

/-- With at least 3 samples, `calculateStdDev` is the sample (n−1)
standard-deviation estimator. -/
theorem calculateStdDev_eq (sqrt : α → α) (l : List α) (h : 3 ≤ l.length) :
    calculateStdDev sqrt l = specSampleStdDev sqrt l := by
  simp only [calculateStdDev, specSampleStdDev, specSampleVariance]
  rw [if_neg (by omega)]
  rw [foldl_add_sq_sum (calculateMean l) l 0, zero_add, calculateMean_eq]

/-- Below 3 samples, `calculateStdDev` is the `0` sentinel. -/
theorem calculateStdDev_sentinel (sqrt : α → α) (l : List α)
    (h : l.length < 3) : calculateStdDev sqrt l = 0 := by
  simp only [calculateStdDev]
  rw [if_pos h]

/-- `pushSample` preserves the window capacity. -/
theorem pushSample_maxSamples (sqrt : α → α) (p : RollingSamples α) (v : α) :
    (pushSample sqrt p v).maxSamples = p.maxSamples := rfl

/-- The contents of a window after one push. -/
theorem pushSample_values (sqrt : α → α) (p : RollingSamples α) (v : α) :
    (pushSample sqrt p v).values =
      (if p.maxSamples < (p.values ++ [v]).length then (p.values ++ [v]).drop 1
       else p.values ++ [v]) := rfl

/-- The stored mean always agrees with `calculateMean` over the stored
values after a push. -/
theorem pushSample_mean (sqrt : α → α) (p : RollingSamples α) (v : α) :
    (pushSample sqrt p v).mean = calculateMean (pushSample sqrt p v).values := rfl

/-- The stored stddev always agrees with `calculateStdDev` over the
stored values after a push. -/
theorem pushSample_stddev (sqrt : α → α) (p : RollingSamples α) (v : α) :
    (pushSample sqrt p v).stddev
      = calculateStdDev sqrt (pushSample sqrt p v).values := rfl

/-- The contents of a window after pushing a list of samples: drop from
the front of old-contents-plus-pushed-values whatever exceeds the
capacity. -/
theorem pushMany_values (sqrt : α → α) :
    ∀ (l : List α) (p : RollingSamples α),
      p.values.length ≤ p.maxSamples →
      (pushMany sqrt p l).values =
          (p.values ++ l).drop (p.values.length + l.length - p.maxSamples)
        ∧ (pushMany sqrt p l).maxSamples = p.maxSamples := by
  intro l
  induction l with
  | nil =>
      intro p hp
      simp [pushMany, Nat.sub_eq_zero_of_le hp]
  | cons v rest ih =>
      intro p hp
      have hstep : pushMany sqrt p (v :: rest)
          = pushMany sqrt (pushSample sqrt p v) rest := by
        simp [pushMany, List.foldl]
      have hassoc : (p.values ++ [v]) ++ rest = p.values ++ v :: rest := by simp
      rcases lt_or_eq_of_le hp with hlt | heq
      · -- below capacity: no eviction on this push
        have hq : (pushSample sqrt p v).values = p.values ++ [v] := by
          rw [pushSample_values, if_neg (by simp; omega)]
        have hqlen : (pushSample sqrt p v).values.length
            ≤ (pushSample sqrt p v).maxSamples := by
          rw [hq, pushSample_maxSamples, List.length_append]
          simp
          omega
        obtain ⟨ihv, ihm⟩ := ih (pushSample sqrt p v) hqlen
        rw [hstep]
        refine ⟨?_, by rw [ihm, pushSample_maxSamples]⟩
        rw [ihv, hq, pushSample_maxSamples, hassoc]
        congr 1
        simp
        omega
      · -- at capacity: the oldest value is evicted
        have hq : (pushSample sqrt p v).values = (p.values ++ [v]).drop 1 := by
          rw [pushSample_values, if_pos (by simp; omega)]
        have hqlen2 : (pushSample sqrt p v).values.length = p.maxSamples := by
          rw [hq, List.length_drop, List.length_append]
          simp
          omega
        obtain ⟨ihv, ihm⟩ := ih (pushSample sqrt p v)
          (by rw [hqlen2, pushSample_maxSamples])
        rw [hstep]
        refine ⟨?_, by rw [ihm, pushSample_maxSamples]⟩
        rw [ihv, hqlen2, pushSample_maxSamples, hq]
        rw [← List.drop_append_of_le_length (by simp), List.drop_drop, hassoc]
        congr 1
        simp
        omega

end CoreLemmas

/-- Claim C4: immediately after every call to `pushSample`, the stored
`mean` is the arithmetic mean of the current values, and the stored
`stddev` is the sample (n−1) standard-deviation estimator of those
values when at least 3 samples are present, and `0` otherwise.  Stated
at the real instantiation, with `Real.sqrt` as the square root. -/
theorem C4_push_statistics (p : RollingSamples ℝ) (v : ℝ) :
    (pushSample Real.sqrt p v).mean =
        specArithMean (pushSample Real.sqrt p v).values
    ∧ (pushSample Real.sqrt p v).stddev =
        (if 3 ≤ (pushSample Real.sqrt p v).values.length then
          specSampleStdDev Real.sqrt (pushSample Real.sqrt p v).values
        else 0) := by
  constructor
  · rw [pushSample_mean, calculateMean_eq]
  · rw [pushSample_stddev]
    split
    · exact calculateStdDev_eq Real.sqrt _ (by assumption)
    · exact calculateStdDev_sentinel Real.sqrt _ (by omega)

/-- Claim C3: pushing `c + k` values one at a time into an empty window
of capacity `c ≥ 1` leaves exactly the last `c` pushed values, in push
order (FIFO eviction of the single oldest value on each overflow). -/
theorem C3_window_eviction {α : Type} [LinearOrderedField α] (sqrt : α → α)
    (c k : Nat) (l : List α) (hc : 1 ≤ c) (hl : l.length = c + k) :
    (pushMany sqrt (emptyWindow c) l).values = l.drop k
    ∧ (pushMany sqrt (emptyWindow c) l).values.length = c := by
  obtain ⟨hv, _⟩ := pushMany_values sqrt l (emptyWindow c) (by simp [emptyWindow])
  have hv2 : (pushMany sqrt (emptyWindow c) l).values = l.drop k := by
    rw [hv]
    simp only [emptyWindow, List.nil_append, List.length_nil]
    congr 1
    omega
  refine ⟨hv2, ?_⟩
  rw [hv2, List.length_drop, hl]
  omega

/-- Witness for C3 at capacity 2 and overflow 1: pushing three rationals
leaves the last two, in order. -/
theorem C3_window_eviction_witness :
    1 ≤ 2 ∧ ([(1 : ℚ), 2, 3].length = 2 + 1)
    ∧ (pushMany ratSqrt (emptyWindow 2) [(1 : ℚ), 2, 3]).values = [(1 : ℚ), 2, 3].drop 1
    ∧ (pushMany ratSqrt (emptyWindow 2) [(1 : ℚ), 2, 3]).values.length = 2 :=
  ⟨by omega, by simp,
    (C3_window_eviction ratSqrt 2 1 [(1 : ℚ), 2, 3] (by omega) (by simp)).1,
    (C3_window_eviction ratSqrt 2 1 [(1 : ℚ), 2, 3] (by omega) (by simp)).2⟩

/-- Claim C2 (amended): whenever the pipeline readiness bit is set, the
deviation evaluator follows the three-case definition: too little
history returns no deviation with z-score 0; a near-constant history
(stddev below the 0.001 tolerance) judges deviation by the equality
tolerance with z-score 0; otherwise the z-score is the standardized
distance and deviation means it exceeds the configured threshold.  The
evaluator is a pure function of the window, which it cannot mutate. -/
theorem C2_deviates_three_cases_when_ready {α : Type} [LinearOrderedField α]
    (token : Nat) (value : α) (profile : RollingSamples α)
    (config : SentinelConfig α) (hready : token &&& 1 ≠ 0) :
    (profile.values.length < config.minSamplesForBaseline →
        deviatesFromBaseline token value profile config
          = { deviates := false, zScore := 0 })
    ∧ (¬ profile.values.length < config.minSamplesForBaseline →
        profile.stddev < 1 / 1000 →
          (deviatesFromBaseline token value profile config).zScore = 0
          ∧ ((deviatesFromBaseline token value profile config).deviates = true
              ↔ 1 / 1000 < |value - profile.mean|))
    ∧ (¬ profile.values.length < config.minSamplesForBaseline →
        ¬ profile.stddev < 1 / 1000 →
          (deviatesFromBaseline token value profile config).zScore
              = (value - profile.mean) / profile.stddev
          ∧ ((deviatesFromBaseline token value profile config).deviates = true
              ↔ config.deviationThreshold
                  < |(value - profile.mean) / profile.stddev|)) := by
  simp only [deviatesFromBaseline, if_neg hready]
  refine ⟨?_, ?_, ?_⟩
  · intro h
    rw [if_pos h]
  · intro h1 h2
    rw [if_neg h1, if_pos h2]
    simp
  · intro h1 h2
    rw [if_neg h1, if_neg h2]
    simp

/-- Counterexample to claim C2 as stated: in the reachable engine state
before the activation step completes (readiness token 0), the evaluator
returns no deviation and z-score 0 even on a window with enough history,
a healthy stddev, and a sample far beyond the deviation threshold, where
the three-case definition requires a deviation with z-score 9. -/
theorem C2_counterexample :
    deviatesFromBaseline 0 (10 : ℚ) demoProfile DEFAULT_CONFIG
        = { deviates := false, zScore := 0 }
    ∧ ¬ demoProfile.values.length < (DEFAULT_CONFIG (α := ℚ)).minSamplesForBaseline
    ∧ ¬ demoProfile.stddev < 1 / 1000
    ∧ (DEFAULT_CONFIG (α := ℚ)).deviationThreshold
        < |((10 : ℚ) - demoProfile.mean) / demoProfile.stddev| := by
  refine ⟨?_, ?_, ?_, ?_⟩ <;>
    norm_num [deviatesFromBaseline, demoProfile, DEFAULT_CONFIG]

/-- Witness for the amended C2: with the readiness bit set, a five-sample
window with mean 1 and stddev 1 judged against the value 10 lands in the
third case. -/
theorem C2_witness :
    ((1 : Nat) &&& 1 ≠ 0)
    ∧ (deviatesFromBaseline 1 (10 : ℚ) demoProfile DEFAULT_CONFIG).zScore
        = ((10 : ℚ) - demoProfile.mean) / demoProfile.stddev
    ∧ ((deviatesFromBaseline 1 (10 : ℚ) demoProfile DEFAULT_CONFIG).deviates = true
        ↔ DEFAULT_CONFIG.deviationThreshold
            < |((10 : ℚ) - demoProfile.mean) / demoProfile.stddev|) :=
  ⟨by norm_num,
    ((C2_deviates_three_cases_when_ready 1 (10 : ℚ) demoProfile DEFAULT_CONFIG
        (by norm_num)).2.2
      (by norm_num [demoProfile, DEFAULT_CONFIG])
      (by norm_num [demoProfile])).1,
    ((C2_deviates_three_cases_when_ready 1 (10 : ℚ) demoProfile DEFAULT_CONFIG
        (by norm_num)).2.2
      (by norm_num [demoProfile, DEFAULT_CONFIG])
      (by norm_num [demoProfile])).2⟩

/-! ### Cross-signal correlation lemmas -/

/-- Membership in the set-like fold underlying `uniqueModules`. -/
theorem mem_foldl_unique (l : List String) :
    ∀ (acc : List String) (x : String),
      (x ∈ l.foldl (fun acc m => if m ∈ acc then acc else acc ++ [m]) acc)
        ↔ x ∈ acc ∨ x ∈ l := by
  induction l with
  | nil => intro acc x; simp
  | cons y ys ih =>
      intro acc x
      simp only [List.foldl]
      by_cases hy : y ∈ acc
      · rw [if_pos hy, ih]
        simp only [List.mem_cons]
        constructor
        · rintro (h | h)
          · exact Or.inl h
          · exact Or.inr (Or.inr h)
        · rintro (h | rfl | h)
          · exact Or.inl h
          · exact Or.inl hy
          · exact Or.inr h
      · rw [if_neg hy, ih]
        simp only [List.mem_append, List.mem_singleton, List.mem_cons]
        tauto

/-- The set-like fold underlying `uniqueModules` preserves freedom from
duplicates. -/
theorem nodup_foldl_unique (l : List String) :
    ∀ acc : List String, acc.Nodup →
      (l.foldl (fun acc m => if m ∈ acc then acc else acc ++ [m]) acc).Nodup := by
  induction l with
  | nil => intro acc h; simpa using h
  | cons y ys ih =>
      intro acc h
      simp only [List.foldl]
      by_cases hy : y ∈ acc
      · rw [if_pos hy]
        exact ih acc h
      · rw [if_neg hy]
        refine ih (acc ++ [y]) ?_
        simp [List.nodup_append, h, hy]

/-- `uniqueModules` enumerates exactly the distinct elements: its length
is the number of distinct module names. -/
theorem uniqueModules_length (l : List String) :
    (uniqueModules l).length = l.toFinset.card := by
  have hnd : (uniqueModules l).Nodup := nodup_foldl_unique l [] List.nodup_nil
  have hmem : ∀ x, x ∈ uniqueModules l ↔ x ∈ l := by
    intro x
    rw [show uniqueModules l
        = l.foldl (fun acc m => if m ∈ acc then acc else acc ++ [m]) [] from rfl,
      mem_foldl_unique]
    simp
  have hfin : (uniqueModules l).toFinset = l.toFinset := by
    ext x
    simp [List.mem_toFinset, hmem]
  rw [← List.toFinset_card_of_nodup hnd, hfin]

/-- Claim C5: the correlation bonus is 0 with an empty module set on
fewer than 2 recent detections; otherwise, with m distinct modules among
them, the bonus is 15 for m ≥ 3, 8 for m = 2, and 0 with an empty set
for m = 1. -/
theorem C5_cross_signal_bonus {α : Type} [LinearOrderedField α]
    (b : PlayerBaseline α) :
    (b.recentDetections.length < 2 →
        calculateCrossSignalBonus b = { bonus := 0, correlatedModules := [] })
    ∧ (2 ≤ b.recentDetections.length →
        (3 ≤ (b.recentDetections.map (fun d => d.module)).toFinset.card →
            (calculateCrossSignalBonus b).bonus = 15)
        ∧ ((b.recentDetections.map (fun d => d.module)).toFinset.card = 2 →
            (calculateCrossSignalBonus b).bonus = 8)
        ∧ ((b.recentDetections.map (fun d => d.module)).toFinset.card = 1 →
            calculateCrossSignalBonus b
              = { bonus := 0, correlatedModules := [] })) := by
  have hlen := uniqueModules_length (b.recentDetections.map (fun d => d.module))
  constructor
  · intro h
    simp only [calculateCrossSignalBonus]
    rw [if_pos h]
  · intro h2
    simp only [calculateCrossSignalBonus]
    rw [if_neg (by omega)]
    refine ⟨?_, ?_, ?_⟩
    · intro h3
      rw [if_pos (by omega)]
    · intro he
      rw [if_neg (by omega), if_pos (by omega)]
    · intro he
      rw [if_neg (by omega), if_neg (by omega)]

/-- Witness for C5: a baseline with two recent detections from two
distinct modules receives bonus 8. -/
theorem C5_witness :
    2 ≤ demoBaseline.recentDetections.length
    ∧ (demoBaseline.recentDetections.map (fun d => d.module)).toFinset.card = 2
    ∧ (calculateCrossSignalBonus demoBaseline).bonus = 8 := by
  have h2 : 2 ≤ demoBaseline.recentDetections.length := by
    simp [demoBaseline]
  have hc : (demoBaseline.recentDetections.map (fun d => d.module)).toFinset.card = 2 := by
    simp [demoBaseline]
  exact ⟨h2, hc, ((C5_cross_signal_bonus demoBaseline).2 h2).2.1 hc⟩

/-- Claim C6: with the engine ready, the action resolver returns
`permanent_ban` exactly at or above the autoban threshold, else
`shadow_ban` exactly at or above the shadowban threshold, and `flag` in
every remaining case (including below the flag threshold — the floor
tier); `temporary_ban` and `hardware_ban` are never returned; under the
default thresholds, 0.90, 0.70, 0.50 and 0.10 map to `permanent_ban`,
`shadow_ban`, `flag` and `flag`. -/
theorem C6_resolve_action {α : Type} [LinearOrderedField α] (token : Nat)
    (confidence : α) (config : SentinelConfig α) (hready : token &&& 1 ≠ 0) :
    (resolveAction token confidence config = .permanent_ban
      ↔ config.autobanConfidence ≤ confidence)
    ∧ (resolveAction token confidence config = .shadow_ban
      ↔ ¬ config.autobanConfidence ≤ confidence
          ∧ config.shadowbanConfidence ≤ confidence)
    ∧ (resolveAction token confidence config = .flag
      ↔ ¬ config.autobanConfidence ≤ confidence
          ∧ ¬ config.shadowbanConfidence ≤ confidence)
    ∧ resolveAction token confidence config ≠ .temporary_ban
    ∧ resolveAction token confidence config ≠ .hardware_ban
    ∧ resolveAction token (90 / 100 : α) DEFAULT_CONFIG = .permanent_ban
    ∧ resolveAction token (70 / 100 : α) DEFAULT_CONFIG = .shadow_ban
    ∧ resolveAction token (50 / 100 : α) DEFAULT_CONFIG = .flag
    ∧ resolveAction token (10 / 100 : α) DEFAULT_CONFIG = .flag := by
  simp only [resolveAction, if_neg hready]
  refine ⟨?_, ?_, ?_, ?_, ?_, ?_, ?_, ?_, ?_⟩
  · split_ifs <;> simp_all
  · split_ifs <;> simp_all
  · split_ifs <;> simp_all
  · split_ifs <;> simp_all
  · split_ifs <;> simp_all
  · rw [if_pos (by norm_num [DEFAULT_CONFIG])]
  · rw [if_neg (by norm_num [DEFAULT_CONFIG]), if_pos (by norm_num [DEFAULT_CONFIG])]
  · rw [if_neg (by norm_num [DEFAULT_CONFIG]), if_neg (by norm_num [DEFAULT_CONFIG]),
      if_pos (by norm_num [DEFAULT_CONFIG])]
  · rw [if_neg (by norm_num [DEFAULT_CONFIG]), if_neg (by norm_num [DEFAULT_CONFIG]),
      if_neg (by norm_num [DEFAULT_CONFIG])]

/-- Witness for C6: with the readiness bit set, confidence 0.90 maps to
a permanent ban under the default thresholds. -/
theorem C6_witness :
    ((1 : Nat) &&& 1 ≠ 0)
    ∧ resolveAction 1 (90 / 100 : ℚ) DEFAULT_CONFIG = .permanent_ban :=
  ⟨by norm_num,
    (C6_resolve_action 1 (90 / 100 : ℚ) DEFAULT_CONFIG
      (by norm_num)).2.2.2.2.2.1⟩

/-- Claim C7: whenever the pipeline readiness bit (0x1) is clear, the
dispatch pipeline returns the empty result sequence and the baseline
store is unchanged — no detector output is produced and no baseline is
created or modified. -/
theorem C7_not_ready_no_op (e : TelemetryEvent)
    (c? : Option (SentinelConfig ℚ)) (token : Nat) (now : ℚ)
    (st : Store ℚ) (h : token &&& 1 = 0) :
    processTelemetry e c? token now st = ([], st) := by
  simp only [processTelemetry]
  rw [if_pos h]

/-- Witness for C7: with token 0 the pipeline drops the end-to-end
scenario event without touching the empty store. -/
theorem C7_witness :
    ((0 : Nat) &&& 1 = 0) ∧ processTelemetry e0 none 0 0 [] = ([], []) :=
  ⟨by norm_num, C7_not_ready_no_op e0 none 0 0 [] (by norm_num)⟩

/-! ### Dispatch decomposition lemmas -/

/-- The aim module ignores events of other types. -/
theorem analyzeAim_skip (e : TelemetryEvent) (c? : Option (SentinelConfig ℚ))
    (token : Nat) (now : ℚ) (st : Store ℚ) (h : e.eventType ≠ .aim_data) :
    analyzeAim e c? token now st = (none, st) := by
  simp only [analyzeAim, if_pos h]

/-- The input module ignores events of other types. -/
theorem analyzeInput_skip (e : TelemetryEvent) (c? : Option (SentinelConfig ℚ))
    (token : Nat) (now : ℚ) (st : Store ℚ) (h : e.eventType ≠ .input_data) :
    analyzeInput e c? token now st = (none, st) := by
  simp only [analyzeInput, if_pos h]

/-- The packet module ignores events of other types. -/
theorem analyzePackets_skip (e : TelemetryEvent) (c? : Option (SentinelConfig ℚ))
    (token : Nat) (now : ℚ) (st : Store ℚ) (h : e.eventType ≠ .packet_data) :
    analyzePackets e c? token now st = (none, st) := by
  simp only [analyzePackets, if_pos h]

/-- The statistics module ignores events of other types. -/
theorem analyzeStats_skip (e : TelemetryEvent) (c? : Option (SentinelConfig ℚ))
    (token : Nat) (now : ℚ) (st : Store ℚ) (h : e.eventType ≠ .stats_data) :
    analyzeStats e c? token now st = (none, st) := by
  simp only [analyzeStats, if_pos h]

/-- The behaviour module ignores events of other types. -/
theorem analyzeBehavior_skip (e : TelemetryEvent) (c? : Option (SentinelConfig ℚ))
    (token : Nat) (now : ℚ) (st : Store ℚ) (h : e.eventType ≠ .behavior_data) :
    analyzeBehavior e c? token now st = (none, st) := by
  simp only [analyzeBehavior, if_pos h]

/-- On a ready engine, an `aim_data` event reduces the pipeline to the
aim module alone. -/
theorem processTelemetry_aim (e : TelemetryEvent)
    (c? : Option (SentinelConfig ℚ)) (token : Nat) (now : ℚ) (st : Store ℚ)
    (htoken : ¬ token &&& 1 = 0) (h : e.eventType = .aim_data) :
    processTelemetry e c? token now st
      = (pushIfDetected [] (analyzeAim e c? token now st).1,
         (analyzeAim e c? token now st).2) := by
  simp only [processTelemetry, if_neg htoken, runModules, MODULES,
    List.foldl_cons, List.foldl_nil, runStep, aimDetector, inputDetector,
    packetDetector, statsDetector, behaviorDetector,
    analyzeInput_skip _ _ _ _ _ (by rw [h]; simp),
    analyzePackets_skip _ _ _ _ _ (by rw [h]; simp),
    analyzeStats_skip _ _ _ _ _ (by rw [h]; simp),
    analyzeBehavior_skip _ _ _ _ _ (by rw [h]; simp), pushIfDetected]

/-- On a ready engine, an `input_data` event reduces the pipeline to the
input module alone. -/
theorem processTelemetry_input (e : TelemetryEvent)
    (c? : Option (SentinelConfig ℚ)) (token : Nat) (now : ℚ) (st : Store ℚ)
    (htoken : ¬ token &&& 1 = 0) (h : e.eventType = .input_data) :
    processTelemetry e c? token now st
      = (pushIfDetected [] (analyzeInput e c? token now st).1,
         (analyzeInput e c? token now st).2) := by
  simp only [processTelemetry, if_neg htoken, runModules, MODULES,
    List.foldl_cons, List.foldl_nil, runStep, aimDetector, inputDetector,
    packetDetector, statsDetector, behaviorDetector,
    analyzeAim_skip _ _ _ _ _ (by rw [h]; simp),
    analyzePackets_skip _ _ _ _ _ (by rw [h]; simp),
    analyzeStats_skip _ _ _ _ _ (by rw [h]; simp),
    analyzeBehavior_skip _ _ _ _ _ (by rw [h]; simp), pushIfDetected]

/-- On a ready engine, a `behavior_data` event reduces the pipeline to
the behaviour module alone. -/
theorem processTelemetry_behavior (e : TelemetryEvent)
    (c? : Option (SentinelConfig ℚ)) (token : Nat) (now : ℚ) (st : Store ℚ)
    (htoken : ¬ token &&& 1 = 0) (h : e.eventType = .behavior_data) :
    processTelemetry e c? token now st
      = (pushIfDetected [] (analyzeBehavior e c? token now st).1,
         (analyzeBehavior e c? token now st).2) := by
  simp only [processTelemetry, if_neg htoken, runModules, MODULES,
    List.foldl_cons, List.foldl_nil, runStep, aimDetector, inputDetector,
    packetDetector, statsDetector, behaviorDetector,
    analyzeAim_skip _ _ _ _ _ (by rw [h]; simp),
    analyzeInput_skip _ _ _ _ _ (by rw [h]; simp),
    analyzePackets_skip _ _ _ _ _ (by rw [h]; simp),
    analyzeStats_skip _ _ _ _ _ (by rw [h]; simp), pushIfDetected]

/-! ### Concrete evaluations of the pipeline -/

/-- First replay event: the input module detects (confidence 0.55) and
the store now holds the two input windows and one recorded detection. -/
theorem evalStep1 :
    (processTelemetry e1 none 1 0 []).1.map (fun r => r.confidence) = [11 / 20]
    ∧ (processTelemetry e1 none 1 0 []).2 = storeAfter1 := by
  rw [processTelemetry_input e1 none 1 0 [] (by norm_num) rfl]
  norm_num [pushIfDetected, analyzeInput, inputChecksOn, inputCheck1,
    inputCheck2, inputCheck3, inputCheck4, inputCheck5, inputCheck6,
    inputFinalize, inputData0, e1,
    applyCrossSignal, pushAndEvaluate, pushMetricSample,
    getOrCreateBaseline, getMetricProfile, setMetricProfile,
    pushSample, calculateMean, calculateStdDev, deviatesFromBaseline,
    calculateCrossSignalBonus, recordDetection, resolveAction,
    mapGet, mapSet, emptyWindow, DEFAULT_CONFIG, uniqueModules,
    NORMALIZED_ENTROPY_FLOOR, HUMAN_MIN_TIMING_VARIANCE, SCORE_THRESHOLD,
    inputEntropyKey, inputTimingKey, inputModuleName,
    TelemetryData.asInput, List.foldl, List.find?, List.filter,
    storeAfter1, baselineAfter1, entropyWin, timingWin]

/-- Second replay event: the behaviour module detects (confidence 0.5);
the correlation bonus is still 0 because only one module has flagged. -/
theorem evalStep2 :
    (processTelemetry e2 none 1 0 storeAfter1).1.map (fun r => r.confidence)
        = [1 / 2]
    ∧ (processTelemetry e2 none 1 0 storeAfter1).2 = storeAfter2 := by
  rw [processTelemetry_behavior e2 none 1 0 storeAfter1 (by norm_num) rfl]
  norm_num [pushIfDetected, analyzeBehavior, behaviorChecksOn, behaviorCheck1,
    behaviorCheck2, behaviorCheck3, behaviorCheck4, behaviorCheck5,
    behaviorCheck6, behaviorFinalize, behaviorData0, e2,
    applyCrossSignal, pushAndEvaluate, pushMetricSample,
    getOrCreateBaseline, getMetricProfile, setMetricProfile,
    pushSample, calculateMean, calculateStdDev, deviatesFromBaseline,
    calculateCrossSignalBonus, recordDetection, resolveAction,
    mapGet, mapSet, emptyWindow, DEFAULT_CONFIG, uniqueModules,
    HUMAN_MIN_REACTION, AUTOMATION_MOVEMENT, SCORE_THRESHOLD,
    behaviorReactionKey, behaviorModuleName,
    TelemetryData.asBehavior, List.foldl, List.find?, List.filter,
    storeAfter1, baselineAfter1, storeAfter2, baselineAfter2,
    entropyWin, timingWin, reactionWin]

/-- Third replay event processed at wall-clock 0: both recorded
detections survive pruning, two distinct modules correlate, and the aim
score 55 + 8 yields confidence 0.63. -/
theorem evalStep3a :
    (processTelemetry e0 none 1 0 storeAfter2).1.map (fun r => r.confidence)
      = [63 / 100] := by
  rw [processTelemetry_aim e0 none 1 0 storeAfter2 (by norm_num) rfl]
  norm_num [pushIfDetected, analyzeAim, aimChecksOn, aimCheck1, aimCheck2,
    aimCheck3, aimCheck4, aimCheck5, aimCheck6, aimFinalize, aimData0, e0,
    applyCrossSignal, pushAndEvaluate, pushMetricSample,
    getOrCreateBaseline, getMetricProfile, setMetricProfile,
    pushSample, calculateMean, calculateStdDev, deviatesFromBaseline,
    calculateCrossSignalBonus, recordDetection, resolveAction,
    mapGet, mapSet, emptyWindow, DEFAULT_CONFIG, uniqueModules,
    HUMAN_MAX_SNAP_ANGLE, HUMAN_MIN_REACTION_MS, SCORE_THRESHOLD,
    aimSnapKey, aimTrackKey, aimModuleName,
    TelemetryData.asAim, List.foldl, List.find?, List.filter,
    storeAfter2, baselineAfter2, entropyWin, timingWin, reactionWin]

/-- Third replay event processed 200 seconds later on the wall clock:
both recorded detections fall outside the 60-second correlation window
and are pruned, no bonus applies, and the same event yields confidence
0.55. -/
theorem evalStep3b :
    (processTelemetry e0 none 1 200000 storeAfter2).1.map (fun r => r.confidence)
      = [11 / 20] := by
  rw [processTelemetry_aim e0 none 1 200000 storeAfter2 (by norm_num) rfl]
  norm_num [pushIfDetected, analyzeAim, aimChecksOn, aimCheck1, aimCheck2,
    aimCheck3, aimCheck4, aimCheck5, aimCheck6, aimFinalize, aimData0, e0,
    applyCrossSignal, pushAndEvaluate, pushMetricSample,
    getOrCreateBaseline, getMetricProfile, setMetricProfile,
    pushSample, calculateMean, calculateStdDev, deviatesFromBaseline,
    calculateCrossSignalBonus, recordDetection, resolveAction,
    mapGet, mapSet, emptyWindow, DEFAULT_CONFIG, uniqueModules,
    HUMAN_MAX_SNAP_ANGLE, HUMAN_MIN_REACTION_MS, SCORE_THRESHOLD,
    aimSnapKey, aimTrackKey, aimModuleName,
    TelemetryData.asAim, List.foldl, List.find?, List.filter,
    storeAfter2, baselineAfter2, entropyWin, timingWin, reactionWin]

/-- Claim C1: under default configuration with the engine ready, the
`aim_data` event with snapAngle 150 and timeToTarget 50 on a player with
no prior history scores 30 + 25 = 55 (combined raw score, with no
correlation bonus to add), and the pipeline yields exactly one
detection, from the AimAnalysis module, with confidence 0.55, severity
medium and recommended action flag. -/
theorem C1_end_to_end :
    (applyCrossSignal (aimChecksOn 1 DEFAULT_CONFIG aimData0
        ((getOrCreateBaseline e0.playerId DEFAULT_CONFIG 0 []).1))).2.1 = 55
    ∧ (processTelemetry e0 none 1 0 []).1.map (fun r => r.module)
        = ["AimAnalysis"]
    ∧ (processTelemetry e0 none 1 0 []).1.map (fun r => r.confidence)
        = [55 / 100]
    ∧ (processTelemetry e0 none 1 0 []).1.map (fun r => r.severity)
        = [Severity.medium]
    ∧ (processTelemetry e0 none 1 0 []).1.map (fun r => r.recommendedAction)
        = [ActionType.flag] := by
  rw [processTelemetry_aim e0 none 1 0 [] (by norm_num) rfl]
  norm_num [pushIfDetected, analyzeAim, aimChecksOn, aimCheck1, aimCheck2,
    aimCheck3, aimCheck4, aimCheck5, aimCheck6, aimFinalize, aimData0, e0,
    applyCrossSignal, pushAndEvaluate, pushMetricSample,
    getOrCreateBaseline, getMetricProfile, setMetricProfile,
    pushSample, calculateMean, calculateStdDev, deviatesFromBaseline,
    calculateCrossSignalBonus, recordDetection, resolveAction,
    mapGet, mapSet, emptyWindow, DEFAULT_CONFIG, uniqueModules,
    HUMAN_MAX_SNAP_ANGLE, HUMAN_MIN_REACTION_MS, SCORE_THRESHOLD,
    aimSnapKey, aimTrackKey, aimModuleName,
    TelemetryData.asAim, List.foldl, List.find?, List.filter]

/-! ### Confidence bounds (C10) -/

/-- Arithmetic core of the confidence bound: a score at or above the
40-point threshold yields `min(score/100, 0.99) ∈ [0.40, 0.99]`. -/
theorem conf_bounds_of_threshold (s : ℚ) (h : ¬ s < SCORE_THRESHOLD) :
    2 / 5 ≤ min (s / 100) (99 / 100) ∧ min (s / 100) (99 / 100) ≤ 99 / 100 := by
  simp only [SCORE_THRESHOLD] at h
  push_neg at h
  refine ⟨le_min (by linarith) (by norm_num), min_le_right _ _⟩

/-- Any verdict produced by the aim finalizer has confidence in
[0.40, 0.99]. -/
theorem aimFinalize_bounds (token : Nat) (now : ℚ) (cfg : SentinelConfig ℚ)
    (pid : String) (data : AimTelemetry) (corr : CorrelationResult ℚ)
    (acc : CheckAcc) (st : Store ℚ) (r : DetectionResult) (st' : Store ℚ)
    (h : aimFinalize token now cfg pid data corr acc st = (some r, st')) :
    2 / 5 ≤ r.confidence ∧ r.confidence ≤ 99 / 100 := by
  simp only [aimFinalize] at h
  split at h
  · exact absurd h (by simp)
  · rename_i hge
    rw [Prod.mk.injEq, Option.some.injEq] at h
    obtain ⟨h1, -⟩ := h
    subst h1
    exact conf_bounds_of_threshold acc.1 hge

/-- Any verdict produced by the input finalizer has confidence in
[0.40, 0.99]. -/
theorem inputFinalize_bounds (token : Nat) (now : ℚ) (cfg : SentinelConfig ℚ)
    (pid : String) (data : InputTelemetry) (corr : CorrelationResult ℚ)
    (acc : CheckAcc) (st : Store ℚ) (r : DetectionResult) (st' : Store ℚ)
    (h : inputFinalize token now cfg pid data corr acc st = (some r, st')) :
    2 / 5 ≤ r.confidence ∧ r.confidence ≤ 99 / 100 := by
  simp only [inputFinalize] at h
  split at h
  · exact absurd h (by simp)
  · rename_i hge
    rw [Prod.mk.injEq, Option.some.injEq] at h
    obtain ⟨h1, -⟩ := h
    subst h1
    exact conf_bounds_of_threshold acc.1 hge

/-- Any verdict produced by the packet finalizer has confidence in
[0.40, 0.99]. -/
theorem packetFinalize_bounds (token : Nat) (now : ℚ) (cfg : SentinelConfig ℚ)
    (pid : String) (data : PacketTelemetry) (corr : CorrelationResult ℚ)
    (acc : CheckAcc) (st : Store ℚ) (r : DetectionResult) (st' : Store ℚ)
    (h : packetFinalize token now cfg pid data corr acc st = (some r, st')) :
    2 / 5 ≤ r.confidence ∧ r.confidence ≤ 99 / 100 := by
  simp only [packetFinalize] at h
  split at h
  · exact absurd h (by simp)
  · rename_i hge
    rw [Prod.mk.injEq, Option.some.injEq] at h
    obtain ⟨h1, -⟩ := h
    subst h1
    exact conf_bounds_of_threshold acc.1 hge

/-- Any verdict produced by the statistics finalizer has confidence in
[0.40, 0.99]. -/
theorem statsFinalize_bounds (token : Nat) (now : ℚ) (cfg : SentinelConfig ℚ)
    (pid : String) (data : StatsTelemetry) (corr : CorrelationResult ℚ)
    (acc : CheckAcc) (st : Store ℚ) (r : DetectionResult) (st' : Store ℚ)
    (h : statsFinalize token now cfg pid data corr acc st = (some r, st')) :
    2 / 5 ≤ r.confidence ∧ r.confidence ≤ 99 / 100 := by
  simp only [statsFinalize] at h
  split at h
  · exact absurd h (by simp)
  · rename_i hge
    rw [Prod.mk.injEq, Option.some.injEq] at h
    obtain ⟨h1, -⟩ := h
    subst h1
    exact conf_bounds_of_threshold acc.1 hge

/-- Any verdict produced by the behaviour finalizer has confidence in
[0.40, 0.99]. -/
theorem behaviorFinalize_bounds (token : Nat) (now : ℚ) (cfg : SentinelConfig ℚ)
    (pid : String) (data : BehaviorTelemetry) (corr : CorrelationResult ℚ)
    (acc : CheckAcc) (st : Store ℚ) (r : DetectionResult) (st' : Store ℚ)
    (h : behaviorFinalize token now cfg pid data corr acc st = (some r, st')) :
    2 / 5 ≤ r.confidence ∧ r.confidence ≤ 99 / 100 := by
  simp only [behaviorFinalize] at h
  split at h
  · exact absurd h (by simp)
  · rename_i hge
    rw [Prod.mk.injEq, Option.some.injEq] at h
    obtain ⟨h1, -⟩ := h
    subst h1
    exact conf_bounds_of_threshold acc.1 hge

/-- Claim C10: every non-null verdict any of the five detector modules
returns has confidence in the closed interval [0.40, 0.99]: a result is
only produced at or above the 40-point score threshold and confidence
is `min(score/100, 0.99)` — strictly tighter than the declared [0, 1]
range. -/
theorem C10_confidence_range :
    (∀ e c? token now st r st', analyzeAim e c? token now st = (some r, st') →
        2 / 5 ≤ r.confidence ∧ r.confidence ≤ 99 / 100)
    ∧ (∀ e c? token now st r st', analyzeInput e c? token now st = (some r, st') →
        2 / 5 ≤ r.confidence ∧ r.confidence ≤ 99 / 100)
    ∧ (∀ e c? token now st r st', analyzePackets e c? token now st = (some r, st') →
        2 / 5 ≤ r.confidence ∧ r.confidence ≤ 99 / 100)
    ∧ (∀ e c? token now st r st', analyzeStats e c? token now st = (some r, st') →
        2 / 5 ≤ r.confidence ∧ r.confidence ≤ 99 / 100)
    ∧ (∀ e c? token now st r st', analyzeBehavior e c? token now st = (some r, st') →
        2 / 5 ≤ r.confidence ∧ r.confidence ≤ 99 / 100) := by
  refine ⟨?_, ?_, ?_, ?_, ?_⟩
  · intro e c? token now st r st' h
    simp only [analyzeAim] at h
    split at h
    · exact absurd h (by simp)
    · exact aimFinalize_bounds _ _ _ _ _ _ _ _ _ _ h
  · intro e c? token now st r st' h
    simp only [analyzeInput] at h
    split at h
    · exact absurd h (by simp)
    · exact inputFinalize_bounds _ _ _ _ _ _ _ _ _ _ h
  · intro e c? token now st r st' h
    simp only [analyzePackets] at h
    split at h
    · exact absurd h (by simp)
    · exact packetFinalize_bounds _ _ _ _ _ _ _ _ _ _ h
  · intro e c? token now st r st' h
    simp only [analyzeStats] at h
    split at h
    · exact absurd h (by simp)
    · exact statsFinalize_bounds _ _ _ _ _ _ _ _ _ _ h
  · intro e c? token now st r st' h
    simp only [analyzeBehavior] at h
    split at h
    · exact absurd h (by simp)
    · exact behaviorFinalize_bounds _ _ _ _ _ _ _ _ _ _ h

/-- Witness for C10: the verdict of the aim module on the end-to-end
scenario event has confidence within [0.40, 0.99]. -/
theorem C10_witness :
    2 / 5 ≤ c10result.confidence ∧ c10result.confidence ≤ 99 / 100 := by
  have hs : (analyzeAim e0 none 1 0 []).1 = some c10result := by
    norm_num [c10result, defaultResult, analyzeAim, aimChecksOn, aimCheck1,
      aimCheck2, aimCheck3, aimCheck4, aimCheck5, aimCheck6, aimFinalize,
      aimData0, e0, applyCrossSignal, pushAndEvaluate,
      getOrCreateBaseline, getMetricProfile, setMetricProfile,
      pushSample, calculateMean, calculateStdDev, deviatesFromBaseline,
      calculateCrossSignalBonus, recordDetection, resolveAction,
      mapGet, mapSet, emptyWindow, DEFAULT_CONFIG, uniqueModules,
      HUMAN_MAX_SNAP_ANGLE, HUMAN_MIN_REACTION_MS, SCORE_THRESHOLD,
      aimSnapKey, aimTrackKey, aimModuleName,
      TelemetryData.asAim, List.foldl, List.find?, List.filter]
  have h : analyzeAim e0 none 1 0 []
      = (some c10result, (analyzeAim e0 none 1 0 []).2) := by
    rw [← hs]
  exact C10_confidence_range.1 e0 none 1 0 [] c10result _ h

/-- Claim C8: a registered detector that throws is caught at the
dispatch boundary and treated as no result: the dispatch loop over a
registry containing it behaves exactly like the loop over the registry
without it, so every later well-behaved detector still runs and its
results still appear (the batch is never aborted). -/
theorem C8_failure_isolation (pre post : List DetectorModule)
    (m : DetectorModule)
    (hm : ∀ e c? token now st, ∃ msg, m.handler e c? token now st = .error msg)
    (e : TelemetryEvent) (c? : Option (SentinelConfig ℚ)) (token : Nat)
    (now : ℚ) (st : Store ℚ) :
    runModules (pre ++ m :: post) e c? token now st
      = runModules (pre ++ post) e c? token now st := by
  simp only [runModules, List.foldl_append, List.foldl_cons]
  congr 1
  obtain ⟨msg, hmsg⟩ :=
    hm e c? token now (List.foldl (runStep e c? token now) ([], st) pre).2
  simp only [runStep, hmsg]

/-- A one-module registry holding only the aim module dispatches to the
aim analyzer alone. -/
theorem runModules_single_aim (e : TelemetryEvent)
    (c? : Option (SentinelConfig ℚ)) (token : Nat) (now : ℚ) (st : Store ℚ) :
    runModules [aimDetector] e c? token now st
      = (pushIfDetected [] (analyzeAim e c? token now st).1,
         (analyzeAim e c? token now st).2) := by
  simp only [runModules, List.foldl_cons, List.foldl_nil, runStep, aimDetector]

/-- Witness for C8: with the always-throwing detector registered before
the aim module, the end-to-end scenario event still yields the aim
module's detection. -/
theorem C8_witness :
    (∀ e c? token now st, ∃ msg,
        boomDetector.handler e c? token now st = Except.error msg)
    ∧ runModules [boomDetector, aimDetector] e0 none 1 0 []
        = runModules [aimDetector] e0 none 1 0 []
    ∧ (runModules [aimDetector] e0 none 1 0 []).1.map (fun r => r.module)
        = ["AimAnalysis"] :=
  ⟨fun _ _ _ _ _ => ⟨"boom", rfl⟩,
    C8_failure_isolation [] [aimDetector] boomDetector
      (fun _ _ _ _ _ => ⟨"boom", rfl⟩) e0 none 1 0 [],
    by
      rw [runModules_single_aim]
      norm_num [pushIfDetected,
        analyzeAim, aimChecksOn, aimCheck1, aimCheck2, aimCheck3, aimCheck4,
        aimCheck5, aimCheck6, aimFinalize, aimData0, e0, applyCrossSignal,
        pushAndEvaluate, getOrCreateBaseline, getMetricProfile,
        setMetricProfile, pushSample, calculateMean, calculateStdDev,
        deviatesFromBaseline, calculateCrossSignalBonus, recordDetection,
        resolveAction, mapGet, mapSet, emptyWindow, DEFAULT_CONFIG,
        uniqueModules, HUMAN_MAX_SNAP_ANGLE, HUMAN_MIN_REACTION_MS,
        SCORE_THRESHOLD, aimSnapKey, aimTrackKey, aimModuleName,
        TelemetryData.asAim, List.foldl, List.find?, List.filter]⟩

/-! ### Replay reproducibility (C9) -/

/-- An empty replay produces no results and leaves the store as is. -/
theorem runSequence_nil (c? : Option (SentinelConfig ℚ)) (token : Nat)
    (st : Store ℚ) : runSequence [] c? token st = ([], st) := rfl

/-- Output accumulation of the replay fold. -/
theorem runSequence_acc (c? : Option (SentinelConfig ℚ)) (token : Nat) :
    ∀ (steps : List (TelemetryEvent × ℚ)) (out : List DetectionResult)
      (st : Store ℚ),
      List.foldl
        (fun acc s =>
          let r := processTelemetry s.1 c? token s.2 acc.2
          (acc.1 ++ r.1, r.2)) (out, st) steps
      = (out ++ (runSequence steps c? token st).1,
         (runSequence steps c? token st).2) := by
  intro steps
  induction steps with
  | nil => intro out st; simp [runSequence]
  | cons s rest ih =>
      intro out st
      rw [List.foldl_cons]
      show List.foldl _
        (out ++ (processTelemetry s.1 c? token s.2 st).1,
         (processTelemetry s.1 c? token s.2 st).2) rest = _
      rw [ih]
      have hrhs : runSequence (s :: rest) c? token st
          = ((processTelemetry s.1 c? token s.2 st).1
                ++ (runSequence rest c? token
                      (processTelemetry s.1 c? token s.2 st).2).1,
             (runSequence rest c? token
                (processTelemetry s.1 c? token s.2 st).2).2) := by
        show List.foldl _ ([], st) (s :: rest) = _
        rw [List.foldl_cons]
        show List.foldl _
          ([] ++ (processTelemetry s.1 c? token s.2 st).1,
           (processTelemetry s.1 c? token s.2 st).2) rest = _
        rw [ih]
        simp
      rw [hrhs]
      simp [List.append_assoc]

/-- Unfolding one replay step. -/
theorem runSequence_cons (s : TelemetryEvent × ℚ)
    (rest : List (TelemetryEvent × ℚ)) (c? : Option (SentinelConfig ℚ))
    (token : Nat) (st : Store ℚ) :
    runSequence (s :: rest) c? token st
      = ((processTelemetry s.1 c? token s.2 st).1
            ++ (runSequence rest c? token
                  (processTelemetry s.1 c? token s.2 st).2).1,
         (runSequence rest c? token
            (processTelemetry s.1 c? token s.2 st).2).2) := by
  show List.foldl _ ([], st) (s :: rest) = _
  rw [List.foldl_cons]
  show List.foldl _
    ([] ++ (processTelemetry s.1 c? token s.2 st).1,
     (processTelemetry s.1 c? token s.2 st).2) rest = _
  rw [runSequence_acc]
  simp

/-- Counterexample to claim C9 as stated: the two replays share the
identical ordered event sequence (`steps1` and `steps2` carry the same
events with the same `timestamp` fields) against a freshly initialized
engine, yet produce different detection sequences, because the engine
reads the wall clock while processing: in the second replay the third
event is processed 200 seconds later, the 60-second correlation window
prunes the two recorded detections, and the cross-signal bonus is lost
(confidence 0.55 instead of 0.63). -/
theorem C9_counterexample :
    steps1.map Prod.fst = steps2.map Prod.fst
    ∧ (runSequence steps1 none 1 []).1.map (fun r => r.confidence)
        ≠ (runSequence steps2 none 1 []).1.map (fun r => r.confidence) := by
  refine ⟨rfl, ?_⟩
  have hA : (runSequence steps1 none 1 []).1.map (fun r => r.confidence)
      = [11 / 20, 1 / 2, 63 / 100] := by
    show ((runSequence ((e1, 0) :: (e2, 0) :: (e0, 0) :: []) none 1 []).1).map
      (fun r => r.confidence) = _
    rw [runSequence_cons]
    dsimp only
    rw [evalStep1.2, runSequence_cons]
    dsimp only
    rw [evalStep2.2, runSequence_cons]
    dsimp only
    rw [runSequence_nil]
    simp only [List.map_append, evalStep1.1, evalStep2.1, evalStep3a]
    simp
  have hB : (runSequence steps2 none 1 []).1.map (fun r => r.confidence)
      = [11 / 20, 1 / 2, 11 / 20] := by
    show ((runSequence ((e1, 0) :: (e2, 0) :: (e0, 200000) :: []) none 1 []).1).map
      (fun r => r.confidence) = _
    rw [runSequence_cons]
    dsimp only
    rw [evalStep1.2, runSequence_cons]
    dsimp only
    rw [evalStep2.2, runSequence_cons]
    dsimp only
    rw [runSequence_nil]
    simp only [List.map_append, evalStep1.1, evalStep2.1, evalStep3b]
    simp
  rw [hA, hB]
  intro h
  simp only [List.cons.injEq] at h
  norm_num at h

/-- Lookup commutes with shifting every baseline in the store. -/
theorem mapGet_shiftStore (delta : ℚ) (st : Store ℚ) (k : String) :
    mapGet (shiftStore delta st) k = (mapGet st k).map (shiftBaseline delta) := by
  simp only [mapGet, shiftStore, List.find?_map]
  rw [show ((fun p : String × PlayerBaseline ℚ => p.1 == k)
      ∘ fun p : String × PlayerBaseline ℚ => (p.1, shiftBaseline delta p.2))
      = fun p : String × PlayerBaseline ℚ => p.1 == k from rfl]
  cases List.find? (fun p : String × PlayerBaseline ℚ => p.1 == k) st <;> rfl

/-- Update commutes with shifting every baseline in the store. -/
theorem mapSet_shiftStore (delta : ℚ) (st : Store ℚ) (k : String)
    (b : PlayerBaseline ℚ) :
    mapSet (shiftStore delta st) k (shiftBaseline delta b)
      = shiftStore delta (mapSet st k b) := by
  simp only [mapSet, shiftStore, List.any_map]
  rw [show ((fun p : String × PlayerBaseline ℚ => p.1 == k)
      ∘ fun p : String × PlayerBaseline ℚ => (p.1, shiftBaseline delta p.2))
      = fun p : String × PlayerBaseline ℚ => p.1 == k from rfl]
  split
  · rw [List.map_map, List.map_map]
    congr 1
    funext p
    by_cases hp : p.1 == k
    · simp [Function.comp, hp]
    · simp [Function.comp, hp]
  · rw [List.map_append]
    rfl

/-- The metrics of a shifted baseline are unchanged. -/
theorem shiftBaseline_metrics (delta : ℚ) (b : PlayerBaseline ℚ) :
    (shiftBaseline delta b).metrics = b.metrics := rfl

/-- The recent detections of a shifted baseline are the shifted recent
detections. -/
theorem shiftBaseline_recent (delta : ℚ) (b : PlayerBaseline ℚ) :
    (shiftBaseline delta b).recentDetections
      = b.recentDetections.map (shiftDetection delta) := rfl

/-- Baseline fetch-or-create commutes with a uniform wall-clock shift:
creation stamps the shifted instant, and window pruning is invariant
because both the cutoff and every stored timestamp move together. -/
theorem getOrCreateBaseline_shift (delta : ℚ) (pid : String)
    (cfg : SentinelConfig ℚ) (t : ℚ) (st : Store ℚ) :
    getOrCreateBaseline pid cfg (t + delta) (shiftStore delta st)
      = (shiftBaseline delta (getOrCreateBaseline pid cfg t st).1,
         shiftStore delta (getOrCreateBaseline pid cfg t st).2) := by
  simp only [getOrCreateBaseline, mapGet_shiftStore]
  have hfilter : ∀ l : List (TimestampedDetection ℚ),
      (l.map (shiftDetection delta)).filter
          (fun d => decide (t + delta - cfg.correlationWindowMs < d.timestamp))
        = (l.filter
            (fun d => decide (t - cfg.correlationWindowMs < d.timestamp))).map
            (shiftDetection delta) := by
    intro l
    rw [List.filter_map]
    congr 1
    apply List.filter_congr
    intro x _
    simp only [Function.comp_apply, shiftDetection, decide_eq_decide]
    constructor <;> intro h <;> linarith
  cases hg : mapGet st pid with
  | none =>
      simp only [Option.map_none]
      rw [← mapSet_shiftStore]
      congr 1
  | some b =>
      simp only [Option.map_some]
      rw [← mapSet_shiftStore]
      congr 1
      all_goals simp [shiftBaseline, hfilter]

/-- Metric window fetch-or-create ignores the shifted timestamps. -/
theorem getMetricProfile_shift (delta : ℚ) (b : PlayerBaseline ℚ)
    (k : String) (cfg : SentinelConfig ℚ) :
    getMetricProfile (shiftBaseline delta b) k cfg
      = ((getMetricProfile b k cfg).1,
         shiftBaseline delta (getMetricProfile b k cfg).2) := by
  simp only [getMetricProfile, shiftBaseline_metrics]
  cases mapGet b.metrics k with
  | none => simp [shiftBaseline]
  | some p => rfl

/-- Metric window write-back commutes with the shift. -/
theorem setMetricProfile_shift (delta : ℚ) (b : PlayerBaseline ℚ)
    (k : String) (p : RollingSamples ℚ) :
    setMetricProfile (shiftBaseline delta b) k p
      = shiftBaseline delta (setMetricProfile b k p) := by
  simp [setMetricProfile, shiftBaseline]

/-- The push-then-evaluate idiom commutes with the shift: the deviation
verdict is unchanged and the baseline is shifted. -/
theorem pushAndEvaluate_shift (delta : ℚ) (token : Nat)
    (cfg : SentinelConfig ℚ) (b : PlayerBaseline ℚ) (k : String) (v : ℚ) :
    pushAndEvaluate token cfg (shiftBaseline delta b) k v
      = ((pushAndEvaluate token cfg b k v).1,
         shiftBaseline delta (pushAndEvaluate token cfg b k v).2) := by
  simp only [pushAndEvaluate, getMetricProfile_shift, setMetricProfile_shift]

/-- The push-only idiom commutes with the shift. -/
theorem pushMetricSample_shift (delta : ℚ) (cfg : SentinelConfig ℚ)
    (b : PlayerBaseline ℚ) (k : String) (v : ℚ) :
    pushMetricSample cfg (shiftBaseline delta b) k v
      = shiftBaseline delta (pushMetricSample cfg b k v) := by
  simp only [pushMetricSample, getMetricProfile_shift, setMetricProfile_shift]

/-- The correlation bonus reads only module names and the log length,
both invariant under the shift. -/
theorem calculateCrossSignalBonus_shift (delta : ℚ) (b : PlayerBaseline ℚ) :
    calculateCrossSignalBonus (shiftBaseline delta b)
      = calculateCrossSignalBonus b := by
  simp only [calculateCrossSignalBonus, shiftBaseline_recent,
    List.length_map, List.map_map]
  rw [show ((fun d : TimestampedDetection ℚ => d.module)
      ∘ shiftDetection delta)
      = fun d : TimestampedDetection ℚ => d.module from rfl]

/-- Recording a detection at a shifted instant commutes with the shift. -/
theorem recordDetection_shift (delta : ℚ) (b : PlayerBaseline ℚ)
    (m : String) (conf : ℚ) (t : ℚ) :
    recordDetection (shiftBaseline delta b) m conf (t + delta)
      = shiftBaseline delta (recordDetection b m conf t) := by
  simp only [recordDetection, shiftBaseline_recent]
  have hmap : b.recentDetections.map (shiftDetection delta)
        ++ [({ module := m, confidence := conf, timestamp := t + delta }
              : TimestampedDetection ℚ)]
      = (b.recentDetections
        ++ [({ module := m, confidence := conf, timestamp := t }
              : TimestampedDetection ℚ)]).map (shiftDetection delta) := by
    rw [List.map_append]
    rfl
  rw [hmap, List.length_map]
  split
  · simp only [shiftBaseline, List.map_drop]
  · simp only [shiftBaseline]

/-- The cross-signal step commutes with the shift of the accumulated
baseline. -/
theorem applyCrossSignal_shift (delta : ℚ) (s : ℚ) (f : List String)
    (b : PlayerBaseline ℚ) :
    applyCrossSignal (s, f, shiftBaseline delta b)
      = ((applyCrossSignal (s, f, b)).1,
         ((applyCrossSignal (s, f, b)).2.1,
          (applyCrossSignal (s, f, b)).2.2.1,
          shiftBaseline delta (applyCrossSignal (s, f, b)).2.2.2)) := by
  simp only [applyCrossSignal, calculateCrossSignalBonus_shift]
  split <;> rfl


/-- The `aimCheck1` step commutes with the wall-clock shift. -/
theorem aimCheck1_shift (delta : ℚ) (token : Nat) (cfg : SentinelConfig ℚ)
    (data : AimTelemetry) (s : ℚ) (f : List String) (b : PlayerBaseline ℚ) :
    aimCheck1 token cfg data (s, f, shiftBaseline delta b)
      = ((aimCheck1 token cfg data (s, f, b)).1,
         (aimCheck1 token cfg data (s, f, b)).2.1,
         shiftBaseline delta (aimCheck1 token cfg data (s, f, b)).2.2) := by
  cases h : data.snapAngle with
  | none => simp only [aimCheck1, h]
  | some v =>
      simp only [aimCheck1, h, pushAndEvaluate_shift]
      by_cases hc1 : HUMAN_MAX_SNAP_ANGLE < v
      · simp [hc1]
      · by_cases hc2 : (pushAndEvaluate token cfg b aimSnapKey v).1.deviates = true ∧ 2 < (pushAndEvaluate token cfg b aimSnapKey v).1.zScore ∧ 60 < v
        · simp [hc1, hc2]
        · simp [hc1, hc2]

/-- The `aimCheck2` step commutes with the wall-clock shift. -/
theorem aimCheck2_shift (delta : ℚ) (token : Nat) (cfg : SentinelConfig ℚ)
    (data : AimTelemetry) (s : ℚ) (f : List String) (b : PlayerBaseline ℚ) :
    aimCheck2 token cfg data (s, f, shiftBaseline delta b)
      = ((aimCheck2 token cfg data (s, f, b)).1,
         (aimCheck2 token cfg data (s, f, b)).2.1,
         shiftBaseline delta (aimCheck2 token cfg data (s, f, b)).2.2) := by
  cases h : data.trackingSmoothness with
  | none => simp only [aimCheck2, h]
  | some v =>
      simp only [aimCheck2, h, pushAndEvaluate_shift]
      by_cases hc1 : INHUMAN_TRACKING < v
      · simp [hc1]
      · by_cases hc2 : (pushAndEvaluate token cfg b aimTrackKey v).1.deviates = true ∧ 2 < (pushAndEvaluate token cfg b aimTrackKey v).1.zScore ∧ 4 / 5 < v
        · simp [hc1, hc2]
        · simp [hc1, hc2]

/-- The `aimCheck3` step commutes with the wall-clock shift. -/
theorem aimCheck3_shift (delta : ℚ) (data : AimTelemetry) (s : ℚ)
    (f : List String) (b : PlayerBaseline ℚ) :
    aimCheck3 data (s, f, shiftBaseline delta b)
      = ((aimCheck3 data (s, f, b)).1,
         (aimCheck3 data (s, f, b)).2.1,
         shiftBaseline delta (aimCheck3 data (s, f, b)).2.2) := by
  cases h : data.headshotPct with
  | none => simp only [aimCheck3, h]
  | some v =>
      simp only [aimCheck3, h]
      by_cases hc : 65 < v
      · simp [hc]
      · simp [hc]

/-- The `aimCheck4` step commutes with the wall-clock shift. -/
theorem aimCheck4_shift (delta : ℚ) (data : AimTelemetry) (s : ℚ)
    (f : List String) (b : PlayerBaseline ℚ) :
    aimCheck4 data (s, f, shiftBaseline delta b)
      = ((aimCheck4 data (s, f, b)).1,
         (aimCheck4 data (s, f, b)).2.1,
         shiftBaseline delta (aimCheck4 data (s, f, b)).2.2) := by
  cases h : data.timeToTarget with
  | none => simp only [aimCheck4, h]
  | some v =>
      simp only [aimCheck4, h]
      by_cases hc : v < HUMAN_MIN_REACTION_MS
      · simp [hc]
      · simp [hc]

/-- The `aimCheck5` step commutes with the wall-clock shift. -/
theorem aimCheck5_shift (delta : ℚ) (data : AimTelemetry) (s : ℚ)
    (f : List String) (b : PlayerBaseline ℚ) :
    aimCheck5 data (s, f, shiftBaseline delta b)
      = ((aimCheck5 data (s, f, b)).1,
         (aimCheck5 data (s, f, b)).2.1,
         shiftBaseline delta (aimCheck5 data (s, f, b)).2.2) := by
  cases h : data.aimLockDuration with
  | none => simp only [aimCheck5, h]
  | some v =>
      simp only [aimCheck5, h]
      by_cases hc : AIM_LOCK_SUSPECT_MS < v
      · simp [hc]
      · simp [hc]

/-- The `aimCheck6` step commutes with the wall-clock shift. -/
theorem aimCheck6_shift (delta : ℚ) (data : AimTelemetry) (s : ℚ)
    (f : List String) (b : PlayerBaseline ℚ) :
    aimCheck6 data (s, f, shiftBaseline delta b)
      = ((aimCheck6 data (s, f, b)).1,
         (aimCheck6 data (s, f, b)).2.1,
         shiftBaseline delta (aimCheck6 data (s, f, b)).2.2) := by
  cases h : data.targetSwitchSpeed with
  | none => simp only [aimCheck6, h]
  | some v =>
      simp only [aimCheck6, h]
      by_cases hc : v < INHUMAN_SWITCH_MS
      · simp [hc]
      · simp [hc]

/-- The `inputCheck1` step commutes with the wall-clock shift. -/
theorem inputCheck1_shift (delta : ℚ) (token : Nat) (cfg : SentinelConfig ℚ)
    (data : InputTelemetry) (s : ℚ) (f : List String) (b : PlayerBaseline ℚ) :
    inputCheck1 token cfg data (s, f, shiftBaseline delta b)
      = ((inputCheck1 token cfg data (s, f, b)).1,
         (inputCheck1 token cfg data (s, f, b)).2.1,
         shiftBaseline delta (inputCheck1 token cfg data (s, f, b)).2.2) := by
  cases h : data.inputEntropy with
  | none => simp only [inputCheck1, h]
  | some v =>
      simp only [inputCheck1, h, pushAndEvaluate_shift]
      by_cases hc1 : v < NORMALIZED_ENTROPY_FLOOR
      · simp [hc1]
      · by_cases hc2 : (pushAndEvaluate token cfg b inputEntropyKey v).1.deviates = true ∧ (pushAndEvaluate token cfg b inputEntropyKey v).1.zScore < -2
        · simp [hc1, hc2]
        · simp [hc1, hc2]

/-- The `inputCheck2` step commutes with the wall-clock shift. -/
theorem inputCheck2_shift (delta : ℚ) (cfg : SentinelConfig ℚ)
    (data : InputTelemetry) (s : ℚ) (f : List String) (b : PlayerBaseline ℚ) :
    inputCheck2 cfg data (s, f, shiftBaseline delta b)
      = ((inputCheck2 cfg data (s, f, b)).1,
         (inputCheck2 cfg data (s, f, b)).2.1,
         shiftBaseline delta (inputCheck2 cfg data (s, f, b)).2.2) := by
  cases h : data.timingVariance with
  | none => simp only [inputCheck2, h]
  | some v =>
      simp only [inputCheck2, h, pushMetricSample_shift]
      by_cases hc : v < HUMAN_MIN_TIMING_VARIANCE
      · simp [hc]
      · simp [hc]

/-- The `inputCheck3` step commutes with the wall-clock shift. -/
theorem inputCheck3_shift (delta : ℚ) (data : InputTelemetry) (s : ℚ)
    (f : List String) (b : PlayerBaseline ℚ) :
    inputCheck3 data (s, f, shiftBaseline delta b)
      = ((inputCheck3 data (s, f, b)).1,
         (inputCheck3 data (s, f, b)).2.1,
         shiftBaseline delta (inputCheck3 data (s, f, b)).2.2) := by
  cases h : data.recoilPattern with
  | none => simp only [inputCheck3, h]
  | some v =>
      simp only [inputCheck3, h]
      by_cases hc : SCRIPT_RECOIL_THRESHOLD < v
      · simp [hc]
      · simp [hc]

/-- The `inputCheck4` step commutes with the wall-clock shift. -/
theorem inputCheck4_shift (delta : ℚ) (data : InputTelemetry) (s : ℚ)
    (f : List String) (b : PlayerBaseline ℚ) :
    inputCheck4 data (s, f, shiftBaseline delta b)
      = ((inputCheck4 data (s, f, b)).1,
         (inputCheck4 data (s, f, b)).2.1,
         shiftBaseline delta (inputCheck4 data (s, f, b)).2.2) := by
  cases h : data.microAdjustments with
  | none => simp only [inputCheck4, h]
  | some v =>
      simp only [inputCheck4, h]
      by_cases hc : HUMAN_MAX_MICRO_ADJ < v
      · simp [hc]
      · simp [hc]

/-- The `inputCheck5` step commutes with the wall-clock shift. -/
theorem inputCheck5_shift (delta : ℚ) (data : InputTelemetry) (s : ℚ)
    (f : List String) (b : PlayerBaseline ℚ) :
    inputCheck5 data (s, f, shiftBaseline delta b)
      = ((inputCheck5 data (s, f, b)).1,
         (inputCheck5 data (s, f, b)).2.1,
         shiftBaseline delta (inputCheck5 data (s, f, b)).2.2) := by
  cases h : data.inputFrequency with
  | none => simp only [inputCheck5, h]
  | some v =>
      simp only [inputCheck5, h]
      by_cases hc : HUMAN_MAX_INPUT_FREQ < v
      · simp [hc]
      · simp [hc]

/-- The `inputCheck6` step commutes with the wall-clock shift. -/
theorem inputCheck6_shift (delta : ℚ) (data : InputTelemetry) (s : ℚ)
    (f : List String) (b : PlayerBaseline ℚ) :
    inputCheck6 data (s, f, shiftBaseline delta b)
      = ((inputCheck6 data (s, f, b)).1,
         (inputCheck6 data (s, f, b)).2.1,
         shiftBaseline delta (inputCheck6 data (s, f, b)).2.2) := by
  cases h : data.patternRepetition with
  | none => simp only [inputCheck6, h]
  | some v =>
      simp only [inputCheck6, h]
      by_cases hc : AUTOMATION_REPETITION < v
      · simp [hc]
      · simp [hc]

/-- The `packetCheck1` step commutes with the wall-clock shift. -/
theorem packetCheck1_shift (delta : ℚ) (token : Nat) (cfg : SentinelConfig ℚ)
    (data : PacketTelemetry) (s : ℚ) (f : List String) (b : PlayerBaseline ℚ) :
    packetCheck1 token cfg data (s, f, shiftBaseline delta b)
      = ((packetCheck1 token cfg data (s, f, b)).1,
         (packetCheck1 token cfg data (s, f, b)).2.1,
         shiftBaseline delta (packetCheck1 token cfg data (s, f, b)).2.2) := by
  cases h : data.packetRate with
  | none => simp only [packetCheck1, h]
  | some v =>
      simp only [packetCheck1, h, pushAndEvaluate_shift]
      by_cases hc1 : CHEAT_PACKET_RATE < v
      · simp [hc1]
      · by_cases hc2 : (pushAndEvaluate token cfg b packetRateKey v).1.deviates = true ∧ 5 / 2 < (pushAndEvaluate token cfg b packetRateKey v).1.zScore
        · simp [hc1, hc2]
        · simp [hc1, hc2]

/-- The `packetCheck2` step commutes with the wall-clock shift. -/
theorem packetCheck2_shift (delta : ℚ) (data : PacketTelemetry) (s : ℚ)
    (f : List String) (b : PlayerBaseline ℚ) :
    packetCheck2 data (s, f, shiftBaseline delta b)
      = ((packetCheck2 data (s, f, b)).1,
         (packetCheck2 data (s, f, b)).2.1,
         shiftBaseline delta (packetCheck2 data (s, f, b)).2.2) := by
  cases h : data.burstCount with
  | none => simp only [packetCheck2, h]
  | some v =>
      simp only [packetCheck2, h]
      by_cases hc : BURST_THRESHOLD < v
      · simp [hc]
      · simp [hc]

/-- The `packetCheck3` step commutes with the wall-clock shift. -/
theorem packetCheck3_shift (delta : ℚ) (data : PacketTelemetry) (s : ℚ)
    (f : List String) (b : PlayerBaseline ℚ) :
    packetCheck3 data (s, f, shiftBaseline delta b)
      = ((packetCheck3 data (s, f, b)).1,
         (packetCheck3 data (s, f, b)).2.1,
         shiftBaseline delta (packetCheck3 data (s, f, b)).2.2) := by
  cases h : data.avgPacketSize with
  | none => simp only [packetCheck3, h]
  | some v =>
      simp only [packetCheck3, h]
      by_cases hc : MAX_PACKET_SIZE < v
      · simp [hc]
      · simp [hc]

/-- The `packetCheck4` step commutes with the wall-clock shift. -/
theorem packetCheck4_shift (delta : ℚ) (data : PacketTelemetry) (s : ℚ)
    (f : List String) (b : PlayerBaseline ℚ) :
    packetCheck4 data (s, f, shiftBaseline delta b)
      = ((packetCheck4 data (s, f, b)).1,
         (packetCheck4 data (s, f, b)).2.1,
         shiftBaseline delta (packetCheck4 data (s, f, b)).2.2) := by
  cases h : data.outOfOrder with
  | none => simp only [packetCheck4, h]
  | some v =>
      simp only [packetCheck4, h]
      by_cases hc : OUT_OF_ORDER_THRESHOLD < v
      · simp [hc]
      · simp [hc]

/-- The `packetCheck5` step commutes with the wall-clock shift. -/
theorem packetCheck5_shift (delta : ℚ) (data : PacketTelemetry) (s : ℚ)
    (f : List String) (b : PlayerBaseline ℚ) :
    packetCheck5 data (s, f, shiftBaseline delta b)
      = ((packetCheck5 data (s, f, b)).1,
         (packetCheck5 data (s, f, b)).2.1,
         shiftBaseline delta (packetCheck5 data (s, f, b)).2.2) := by
  cases h : data.duplicateRate with
  | none => simp only [packetCheck5, h]
  | some v =>
      simp only [packetCheck5, h]
      by_cases hc : DUPLICATE_THRESHOLD < v
      · simp [hc]
      · simp [hc]

/-- The `packetCheck6` step commutes with the wall-clock shift. -/
theorem packetCheck6_shift (delta : ℚ) (data : PacketTelemetry) (s : ℚ)
    (f : List String) (b : PlayerBaseline ℚ) :
    packetCheck6 data (s, f, shiftBaseline delta b)
      = ((packetCheck6 data (s, f, b)).1,
         (packetCheck6 data (s, f, b)).2.1,
         shiftBaseline delta (packetCheck6 data (s, f, b)).2.2) := by
  cases h : data.suspiciousPayloads with
  | none => simp only [packetCheck6, h]
  | some v =>
      simp only [packetCheck6, h]
      by_cases hc : SUSPICIOUS_PAYLOAD_THRESHOLD < v
      · simp [hc]
      · simp [hc]

/-- The `statsCheck1` step commutes with the wall-clock shift. -/
theorem statsCheck1_shift (delta : ℚ) (token : Nat) (cfg : SentinelConfig ℚ)
    (data : StatsTelemetry) (s : ℚ) (f : List String) (b : PlayerBaseline ℚ) :
    statsCheck1 token cfg data (s, f, shiftBaseline delta b)
      = ((statsCheck1 token cfg data (s, f, b)).1,
         (statsCheck1 token cfg data (s, f, b)).2.1,
         shiftBaseline delta (statsCheck1 token cfg data (s, f, b)).2.2) := by
  cases h : data.kdRatio with
  | none => simp only [statsCheck1, h]
  | some v =>
      simp only [statsCheck1, h, pushAndEvaluate_shift]
      by_cases hc1 : IMPOSSIBLE_KD < v
      · simp [hc1]
      · by_cases hc2 : (pushAndEvaluate token cfg b statsKdKey v).1.deviates = true ∧ 5 / 2 < (pushAndEvaluate token cfg b statsKdKey v).1.zScore ∧ 4 < v
        · simp [hc1, hc2]
        · simp [hc1, hc2]

/-- The `statsCheck2` step commutes with the wall-clock shift. -/
theorem statsCheck2_shift (delta : ℚ) (data : StatsTelemetry) (s : ℚ)
    (f : List String) (b : PlayerBaseline ℚ) :
    statsCheck2 data (s, f, shiftBaseline delta b)
      = ((statsCheck2 data (s, f, b)).1,
         (statsCheck2 data (s, f, b)).2.1,
         shiftBaseline delta (statsCheck2 data (s, f, b)).2.2) := by
  cases h : data.winRate with
  | none => simp only [statsCheck2, h]
  | some v =>
      simp only [statsCheck2, h]
      by_cases hc : IMPOSSIBLE_WIN_RATE < v
      · simp [hc]
      · simp [hc]

/-- The `statsCheck3` step commutes with the wall-clock shift. -/
theorem statsCheck3_shift (delta : ℚ) (data : StatsTelemetry) (s : ℚ)
    (f : List String) (b : PlayerBaseline ℚ) :
    statsCheck3 data (s, f, shiftBaseline delta b)
      = ((statsCheck3 data (s, f, b)).1,
         (statsCheck3 data (s, f, b)).2.1,
         shiftBaseline delta (statsCheck3 data (s, f, b)).2.2) := by
  cases h : data.accuracyZScore with
  | none => simp only [statsCheck3, h]
  | some v =>
      simp only [statsCheck3, h]
      by_cases hc : EXTREME_Z_SCORE < v
      · simp [hc]
      · simp [hc]

/-- The `statsCheck4` step commutes with the wall-clock shift. -/
theorem statsCheck4_shift (delta : ℚ) (data : StatsTelemetry) (s : ℚ)
    (f : List String) (b : PlayerBaseline ℚ) :
    statsCheck4 data (s, f, shiftBaseline delta b)
      = ((statsCheck4 data (s, f, b)).1,
         (statsCheck4 data (s, f, b)).2.1,
         shiftBaseline delta (statsCheck4 data (s, f, b)).2.2) := by
  cases h : data.headshotZScore with
  | none => simp only [statsCheck4, h]
  | some v =>
      simp only [statsCheck4, h]
      by_cases hc : EXTREME_Z_SCORE < v
      · simp [hc]
      · simp [hc]

/-- The `statsCheck5` step commutes with the wall-clock shift. -/
theorem statsCheck5_shift (delta : ℚ) (data : StatsTelemetry) (s : ℚ)
    (f : List String) (b : PlayerBaseline ℚ) :
    statsCheck5 data (s, f, shiftBaseline delta b)
      = ((statsCheck5 data (s, f, b)).1,
         (statsCheck5 data (s, f, b)).2.1,
         shiftBaseline delta (statsCheck5 data (s, f, b)).2.2) := by
  cases h : data.spreeFrequency with
  | none => simp only [statsCheck5, h]
  | some v =>
      simp only [statsCheck5, h]
      by_cases hc : ANOMALOUS_SPREE < v
      · simp [hc]
      · simp [hc]

/-- The `statsCheck6` step commutes with the wall-clock shift. -/
theorem statsCheck6_shift (delta : ℚ) (data : StatsTelemetry) (s : ℚ)
    (f : List String) (b : PlayerBaseline ℚ) :
    statsCheck6 data (s, f, shiftBaseline delta b)
      = ((statsCheck6 data (s, f, b)).1,
         (statsCheck6 data (s, f, b)).2.1,
         shiftBaseline delta (statsCheck6 data (s, f, b)).2.2) := by
  cases h : data.deathlessStreak with
  | none => simp only [statsCheck6, h]
  | some v =>
      simp only [statsCheck6, h]
      by_cases hc : INHUMAN_DEATHLESS < v
      · simp [hc]
      · simp [hc]

/-- The `behaviorCheck1` step commutes with the wall-clock shift. -/
theorem behaviorCheck1_shift (delta : ℚ) (token : Nat) (cfg : SentinelConfig ℚ)
    (data : BehaviorTelemetry) (s : ℚ) (f : List String) (b : PlayerBaseline ℚ) :
    behaviorCheck1 token cfg data (s, f, shiftBaseline delta b)
      = ((behaviorCheck1 token cfg data (s, f, b)).1,
         (behaviorCheck1 token cfg data (s, f, b)).2.1,
         shiftBaseline delta (behaviorCheck1 token cfg data (s, f, b)).2.2) := by
  cases h : data.reactionTime with
  | none => simp only [behaviorCheck1, h]
  | some v =>
      simp only [behaviorCheck1, h, pushAndEvaluate_shift]
      by_cases hc1 : v < HUMAN_MIN_REACTION
      · simp [hc1]
      · by_cases hc2 : (pushAndEvaluate token cfg b behaviorReactionKey v).1.deviates = true ∧ (pushAndEvaluate token cfg b behaviorReactionKey v).1.zScore < -2 ∧ v < 150
        · simp [hc1, hc2]
        · simp [hc1, hc2]

/-- The `behaviorCheck2` step commutes with the wall-clock shift. -/
theorem behaviorCheck2_shift (delta : ℚ) (data : BehaviorTelemetry) (s : ℚ)
    (f : List String) (b : PlayerBaseline ℚ) :
    behaviorCheck2 data (s, f, shiftBaseline delta b)
      = ((behaviorCheck2 data (s, f, b)).1,
         (behaviorCheck2 data (s, f, b)).2.1,
         shiftBaseline delta (behaviorCheck2 data (s, f, b)).2.2) := by
  cases h : data.movementEntropy with
  | none => simp only [behaviorCheck2, h]
  | some v =>
      simp only [behaviorCheck2, h]
      by_cases hc : v < AUTOMATION_MOVEMENT
      · simp [hc]
      · simp [hc]

/-- The `behaviorCheck3` step commutes with the wall-clock shift. -/
theorem behaviorCheck3_shift (delta : ℚ) (data : BehaviorTelemetry) (s : ℚ)
    (f : List String) (b : PlayerBaseline ℚ) :
    behaviorCheck3 data (s, f, shiftBaseline delta b)
      = ((behaviorCheck3 data (s, f, b)).1,
         (behaviorCheck3 data (s, f, b)).2.1,
         shiftBaseline delta (behaviorCheck3 data (s, f, b)).2.2) := by
  cases h : data.preFiringRate with
  | none => simp only [behaviorCheck3, h]
  | some v =>
      simp only [behaviorCheck3, h]
      by_cases hc : WALLHACK_PREFIRE_RATE < v
      · simp [hc]
      · simp [hc]

/-- The `behaviorCheck4` step commutes with the wall-clock shift. -/
theorem behaviorCheck4_shift (delta : ℚ) (data : BehaviorTelemetry) (s : ℚ)
    (f : List String) (b : PlayerBaseline ℚ) :
    behaviorCheck4 data (s, f, shiftBaseline delta b)
      = ((behaviorCheck4 data (s, f, b)).1,
         (behaviorCheck4 data (s, f, b)).2.1,
         shiftBaseline delta (behaviorCheck4 data (s, f, b)).2.2) := by
  cases h : data.wallTrackEvents with
  | none => simp only [behaviorCheck4, h]
  | some v =>
      simp only [behaviorCheck4, h]
      by_cases hc : WALL_TRACK_THRESHOLD < v
      · simp [hc]
      · simp [hc]

/-- The `behaviorCheck5` step commutes with the wall-clock shift. -/
theorem behaviorCheck5_shift (delta : ℚ) (data : BehaviorTelemetry) (s : ℚ)
    (f : List String) (b : PlayerBaseline ℚ) :
    behaviorCheck5 data (s, f, shiftBaseline delta b)
      = ((behaviorCheck5 data (s, f, b)).1,
         (behaviorCheck5 data (s, f, b)).2.1,
         shiftBaseline delta (behaviorCheck5 data (s, f, b)).2.2) := by
  cases h : data.spawnPrediction with
  | none => simp only [behaviorCheck5, h]
  | some v =>
      simp only [behaviorCheck5, h]
      by_cases hc : ESP_SPAWN_PREDICTION < v
      · simp [hc]
      · simp [hc]

/-- The `behaviorCheck6` step commutes with the wall-clock shift. -/
theorem behaviorCheck6_shift (delta : ℚ) (data : BehaviorTelemetry) (s : ℚ)
    (f : List String) (b : PlayerBaseline ℚ) :
    behaviorCheck6 data (s, f, shiftBaseline delta b)
      = ((behaviorCheck6 data (s, f, b)).1,
         (behaviorCheck6 data (s, f, b)).2.1,
         shiftBaseline delta (behaviorCheck6 data (s, f, b)).2.2) := by
  cases h : data.cameraBehavior with
  | none => simp only [behaviorCheck6, h]
  | some v =>
      simp only [behaviorCheck6, h]
      by_cases hc : CHEAT_CAMERA_PATTERN < v
      · simp [hc]
      · simp [hc]

/-- The `aimChecksOn` chain commutes with the wall-clock shift. -/
theorem aimChecksOn_shift (delta : ℚ) (token : Nat) (cfg : SentinelConfig ℚ)
    (data : AimTelemetry) (b : PlayerBaseline ℚ) :
    aimChecksOn token cfg data (shiftBaseline delta b)
      = ((aimChecksOn token cfg data b).1,
         (aimChecksOn token cfg data b).2.1,
         shiftBaseline delta (aimChecksOn token cfg data b).2.2) := by
  simp only [aimChecksOn]
  rw [aimCheck1_shift, aimCheck2_shift, aimCheck3_shift, aimCheck4_shift, aimCheck5_shift, aimCheck6_shift]

/-- The `inputChecksOn` chain commutes with the wall-clock shift. -/
theorem inputChecksOn_shift (delta : ℚ) (token : Nat) (cfg : SentinelConfig ℚ)
    (data : InputTelemetry) (b : PlayerBaseline ℚ) :
    inputChecksOn token cfg data (shiftBaseline delta b)
      = ((inputChecksOn token cfg data b).1,
         (inputChecksOn token cfg data b).2.1,
         shiftBaseline delta (inputChecksOn token cfg data b).2.2) := by
  simp only [inputChecksOn]
  rw [inputCheck1_shift, inputCheck2_shift, inputCheck3_shift, inputCheck4_shift, inputCheck5_shift, inputCheck6_shift]

/-- The `packetChecksOn` chain commutes with the wall-clock shift. -/
theorem packetChecksOn_shift (delta : ℚ) (token : Nat) (cfg : SentinelConfig ℚ)
    (data : PacketTelemetry) (b : PlayerBaseline ℚ) :
    packetChecksOn token cfg data (shiftBaseline delta b)
      = ((packetChecksOn token cfg data b).1,
         (packetChecksOn token cfg data b).2.1,
         shiftBaseline delta (packetChecksOn token cfg data b).2.2) := by
  simp only [packetChecksOn]
  rw [packetCheck1_shift, packetCheck2_shift, packetCheck3_shift, packetCheck4_shift, packetCheck5_shift, packetCheck6_shift]

/-- The `statsChecksOn` chain commutes with the wall-clock shift. -/
theorem statsChecksOn_shift (delta : ℚ) (token : Nat) (cfg : SentinelConfig ℚ)
    (data : StatsTelemetry) (b : PlayerBaseline ℚ) :
    statsChecksOn token cfg data (shiftBaseline delta b)
      = ((statsChecksOn token cfg data b).1,
         (statsChecksOn token cfg data b).2.1,
         shiftBaseline delta (statsChecksOn token cfg data b).2.2) := by
  simp only [statsChecksOn]
  rw [statsCheck1_shift, statsCheck2_shift, statsCheck3_shift, statsCheck4_shift, statsCheck5_shift, statsCheck6_shift]

/-- The `behaviorChecksOn` chain commutes with the wall-clock shift. -/
theorem behaviorChecksOn_shift (delta : ℚ) (token : Nat) (cfg : SentinelConfig ℚ)
    (data : BehaviorTelemetry) (b : PlayerBaseline ℚ) :
    behaviorChecksOn token cfg data (shiftBaseline delta b)
      = ((behaviorChecksOn token cfg data b).1,
         (behaviorChecksOn token cfg data b).2.1,
         shiftBaseline delta (behaviorChecksOn token cfg data b).2.2) := by
  simp only [behaviorChecksOn]
  rw [behaviorCheck1_shift, behaviorCheck2_shift, behaviorCheck3_shift, behaviorCheck4_shift, behaviorCheck5_shift, behaviorCheck6_shift]

/-- The `aimFinalize` tail commutes with the wall-clock shift. -/
theorem aimFinalize_shift (delta : ℚ) (token : Nat) (t : ℚ)
    (cfg : SentinelConfig ℚ) (pid : String) (data : AimTelemetry)
    (corr : CorrelationResult ℚ) (s : ℚ) (f : List String)
    (b : PlayerBaseline ℚ) (st : Store ℚ) :
    aimFinalize token (t + delta) cfg pid data corr (s, f, shiftBaseline delta b)
        (shiftStore delta st)
      = ((aimFinalize token t cfg pid data corr (s, f, b) st).1,
         shiftStore delta (aimFinalize token t cfg pid data corr (s, f, b) st).2) := by
  simp only [aimFinalize]
  by_cases hs : s < SCORE_THRESHOLD
  · simp only [if_pos hs, mapSet_shiftStore]
  · simp only [if_neg hs, recordDetection_shift, getMetricProfile_shift,
      mapSet_shiftStore]

/-- The `inputFinalize` tail commutes with the wall-clock shift. -/
theorem inputFinalize_shift (delta : ℚ) (token : Nat) (t : ℚ)
    (cfg : SentinelConfig ℚ) (pid : String) (data : InputTelemetry)
    (corr : CorrelationResult ℚ) (s : ℚ) (f : List String)
    (b : PlayerBaseline ℚ) (st : Store ℚ) :
    inputFinalize token (t + delta) cfg pid data corr (s, f, shiftBaseline delta b)
        (shiftStore delta st)
      = ((inputFinalize token t cfg pid data corr (s, f, b) st).1,
         shiftStore delta (inputFinalize token t cfg pid data corr (s, f, b) st).2) := by
  simp only [inputFinalize]
  by_cases hs : s < SCORE_THRESHOLD
  · simp only [if_pos hs, mapSet_shiftStore]
  · simp only [if_neg hs, recordDetection_shift, getMetricProfile_shift,
      mapSet_shiftStore]

/-- The `packetFinalize` tail commutes with the wall-clock shift. -/
theorem packetFinalize_shift (delta : ℚ) (token : Nat) (t : ℚ)
    (cfg : SentinelConfig ℚ) (pid : String) (data : PacketTelemetry)
    (corr : CorrelationResult ℚ) (s : ℚ) (f : List String)
    (b : PlayerBaseline ℚ) (st : Store ℚ) :
    packetFinalize token (t + delta) cfg pid data corr (s, f, shiftBaseline delta b)
        (shiftStore delta st)
      = ((packetFinalize token t cfg pid data corr (s, f, b) st).1,
         shiftStore delta (packetFinalize token t cfg pid data corr (s, f, b) st).2) := by
  simp only [packetFinalize]
  by_cases hs : s < SCORE_THRESHOLD
  · simp only [if_pos hs, mapSet_shiftStore]
  · simp only [if_neg hs, recordDetection_shift, getMetricProfile_shift,
      mapSet_shiftStore]

/-- The `statsFinalize` tail commutes with the wall-clock shift. -/
theorem statsFinalize_shift (delta : ℚ) (token : Nat) (t : ℚ)
    (cfg : SentinelConfig ℚ) (pid : String) (data : StatsTelemetry)
    (corr : CorrelationResult ℚ) (s : ℚ) (f : List String)
    (b : PlayerBaseline ℚ) (st : Store ℚ) :
    statsFinalize token (t + delta) cfg pid data corr (s, f, shiftBaseline delta b)
        (shiftStore delta st)
      = ((statsFinalize token t cfg pid data corr (s, f, b) st).1,
         shiftStore delta (statsFinalize token t cfg pid data corr (s, f, b) st).2) := by
  simp only [statsFinalize]
  by_cases hs : s < SCORE_THRESHOLD
  · simp only [if_pos hs, mapSet_shiftStore]
  · simp only [if_neg hs, recordDetection_shift, getMetricProfile_shift,
      mapSet_shiftStore]

/-- The `behaviorFinalize` tail commutes with the wall-clock shift. -/
theorem behaviorFinalize_shift (delta : ℚ) (token : Nat) (t : ℚ)
    (cfg : SentinelConfig ℚ) (pid : String) (data : BehaviorTelemetry)
    (corr : CorrelationResult ℚ) (s : ℚ) (f : List String)
    (b : PlayerBaseline ℚ) (st : Store ℚ) :
    behaviorFinalize token (t + delta) cfg pid data corr (s, f, shiftBaseline delta b)
        (shiftStore delta st)
      = ((behaviorFinalize token t cfg pid data corr (s, f, b) st).1,
         shiftStore delta (behaviorFinalize token t cfg pid data corr (s, f, b) st).2) := by
  simp only [behaviorFinalize]
  by_cases hs : s < SCORE_THRESHOLD
  · simp only [if_pos hs, mapSet_shiftStore]
  · simp only [if_neg hs, recordDetection_shift, getMetricProfile_shift,
      mapSet_shiftStore]

/-- `analyzeAim` commutes with a uniform wall-clock shift: same verdict,
shifted store. -/
theorem analyzeAim_shift (delta : ℚ) (e : TelemetryEvent)
    (c? : Option (SentinelConfig ℚ)) (token : Nat) (t : ℚ) (st : Store ℚ) :
    analyzeAim e c? token (t + delta) (shiftStore delta st)
      = ((analyzeAim e c? token t st).1,
         shiftStore delta (analyzeAim e c? token t st).2) := by
  by_cases he : e.eventType = .aim_data
  · simp only [analyzeAim]
    rw [if_neg (not_not_intro he), if_neg (not_not_intro he)]
    rw [getOrCreateBaseline_shift]
    dsimp only
    rw [aimChecksOn_shift]
    rw [applyCrossSignal_shift]
    dsimp only
    rw [aimFinalize_shift]
    try rfl
    try simp only [Prod.mk.eta]
  · have hne : e.eventType ≠ .aim_data := he
    simp only [analyzeAim]
    rw [if_pos hne, if_pos hne]

/-- `analyzeInput` commutes with a uniform wall-clock shift: same verdict,
shifted store. -/
theorem analyzeInput_shift (delta : ℚ) (e : TelemetryEvent)
    (c? : Option (SentinelConfig ℚ)) (token : Nat) (t : ℚ) (st : Store ℚ) :
    analyzeInput e c? token (t + delta) (shiftStore delta st)
      = ((analyzeInput e c? token t st).1,
         shiftStore delta (analyzeInput e c? token t st).2) := by
  by_cases he : e.eventType = .input_data
  · simp only [analyzeInput]
    rw [if_neg (not_not_intro he), if_neg (not_not_intro he)]
    rw [getOrCreateBaseline_shift]
    dsimp only
    rw [inputChecksOn_shift]
    rw [applyCrossSignal_shift]
    dsimp only
    rw [inputFinalize_shift]
    try rfl
    try simp only [Prod.mk.eta]
  · have hne : e.eventType ≠ .input_data := he
    simp only [analyzeInput]
    rw [if_pos hne, if_pos hne]

/-- `analyzePackets` commutes with a uniform wall-clock shift: same verdict,
shifted store. -/
theorem analyzePackets_shift (delta : ℚ) (e : TelemetryEvent)
    (c? : Option (SentinelConfig ℚ)) (token : Nat) (t : ℚ) (st : Store ℚ) :
    analyzePackets e c? token (t + delta) (shiftStore delta st)
      = ((analyzePackets e c? token t st).1,
         shiftStore delta (analyzePackets e c? token t st).2) := by
  by_cases he : e.eventType = .packet_data
  · simp only [analyzePackets]
    rw [if_neg (not_not_intro he), if_neg (not_not_intro he)]
    rw [getOrCreateBaseline_shift]
    dsimp only
    rw [packetChecksOn_shift]
    rw [applyCrossSignal_shift]
    dsimp only
    rw [packetFinalize_shift]
    try rfl
    try simp only [Prod.mk.eta]
  · have hne : e.eventType ≠ .packet_data := he
    simp only [analyzePackets]
    rw [if_pos hne, if_pos hne]

/-- `analyzeStats` commutes with a uniform wall-clock shift: same verdict,
shifted store. -/
theorem analyzeStats_shift (delta : ℚ) (e : TelemetryEvent)
    (c? : Option (SentinelConfig ℚ)) (token : Nat) (t : ℚ) (st : Store ℚ) :
    analyzeStats e c? token (t + delta) (shiftStore delta st)
      = ((analyzeStats e c? token t st).1,
         shiftStore delta (analyzeStats e c? token t st).2) := by
  by_cases he : e.eventType = .stats_data
  · simp only [analyzeStats]
    rw [if_neg (not_not_intro he), if_neg (not_not_intro he)]
    rw [getOrCreateBaseline_shift]
    dsimp only
    rw [statsChecksOn_shift]
    rw [applyCrossSignal_shift]
    dsimp only
    rw [statsFinalize_shift]
    try rfl
    try simp only [Prod.mk.eta]
  · have hne : e.eventType ≠ .stats_data := he
    simp only [analyzeStats]
    rw [if_pos hne, if_pos hne]

/-- `analyzeBehavior` commutes with a uniform wall-clock shift: same verdict,
shifted store. -/
theorem analyzeBehavior_shift (delta : ℚ) (e : TelemetryEvent)
    (c? : Option (SentinelConfig ℚ)) (token : Nat) (t : ℚ) (st : Store ℚ) :
    analyzeBehavior e c? token (t + delta) (shiftStore delta st)
      = ((analyzeBehavior e c? token t st).1,
         shiftStore delta (analyzeBehavior e c? token t st).2) := by
  by_cases he : e.eventType = .behavior_data
  · simp only [analyzeBehavior]
    rw [if_neg (not_not_intro he), if_neg (not_not_intro he)]
    rw [getOrCreateBaseline_shift]
    dsimp only
    rw [behaviorChecksOn_shift]
    rw [applyCrossSignal_shift]
    dsimp only
    rw [behaviorFinalize_shift]
    try rfl
    try simp only [Prod.mk.eta]
  · have hne : e.eventType ≠ .behavior_data := he
    simp only [analyzeBehavior]
    rw [if_pos hne, if_pos hne]

/-- One dispatched event commutes with a uniform wall-clock shift: the
produced detection sequence is identical and the store is shifted. -/
theorem processTelemetry_shift (delta : ℚ) (e : TelemetryEvent)
    (c? : Option (SentinelConfig ℚ)) (token : Nat) (t : ℚ) (st : Store ℚ) :
    processTelemetry e c? token (t + delta) (shiftStore delta st)
      = ((processTelemetry e c? token t st).1,
         shiftStore delta (processTelemetry e c? token t st).2) := by
  by_cases htoken : token &&& 1 = 0
  · simp only [processTelemetry]
    rw [if_pos htoken, if_pos htoken]
  · simp only [processTelemetry]
    rw [if_neg htoken, if_neg htoken]
    simp only [runModules, MODULES, List.foldl_cons, List.foldl_nil, runStep,
      aimDetector, inputDetector, packetDetector, statsDetector,
      behaviorDetector]
    rw [analyzeAim_shift]
    dsimp only
    rw [analyzeInput_shift]
    dsimp only
    rw [analyzePackets_shift]
    dsimp only
    rw [analyzeStats_shift]
    dsimp only
    rw [analyzeBehavior_shift]

/-- A whole replay commutes with a uniform wall-clock shift. -/
theorem runSequence_shift (delta : ℚ) (c? : Option (SentinelConfig ℚ))
    (token : Nat) :
    ∀ (steps : List (TelemetryEvent × ℚ)) (st : Store ℚ),
      runSequence (shiftSteps delta steps) c? token (shiftStore delta st)
        = ((runSequence steps c? token st).1,
           shiftStore delta (runSequence steps c? token st).2) := by
  intro steps
  induction steps with
  | nil => intro st; simp [runSequence, shiftSteps]
  | cons s rest ih =>
      intro st
      rw [show shiftSteps delta (s :: rest)
          = (s.1, s.2 + delta) :: shiftSteps delta rest from rfl]
      rw [runSequence_cons, runSequence_cons]
      dsimp only
      rw [processTelemetry_shift]
      dsimp only
      rw [ih]

/-- Claim C9 (amended): replaying the identical ordered event sequence
against a freshly initialized engine is reproducible up to a uniform
shift of the wall-clock readings observed while processing: two runs
whose clock readings agree up to a constant offset (in particular, two
runs processed at the same instants) produce identical detection
sequences.  Absolute wall-clock time enters the engine only through
correlation-window pruning and the timestamps recorded with detections;
the `timestamp` field carried on input events is never read.  (Runs
whose clock readings differ non-uniformly may diverge — see the
counterexample.) -/
theorem C9_shift_invariant_replay (steps : List (TelemetryEvent × ℚ))
    (c? : Option (SentinelConfig ℚ)) (token : Nat) (delta : ℚ) :
    (runSequence (shiftSteps delta steps) c? token []).1
      = (runSequence steps c? token []).1 := by
  have h := runSequence_shift delta c? token steps []
  rw [show shiftStore delta [] = ([] : Store ℚ) from rfl] at h
  rw [h]
